import Mathlib

/-!
Shallow embedding of the indicator-computation-and-aggregation engine of
`btc_dashboard.py` (BTC-Dashboard repository), together with proofs that
settle the frozen claims C1..C10 about its natural-language specification.

Modelling conventions
- Python floats are idealised as exact numbers.  Indicator arithmetic that is
  purely rational (rolling means, band comparisons) is embedded polymorphically
  over a `LinearOrderedField`; the transcendental parts (`np.exp`, `np.log`,
  `np.log10`, `10 ** x`) are embedded over `ℝ`.
- A float that may be NaN is embedded as `Option _`, with `none` standing for
  NaN.  NaN-propagating arithmetic and the always-`False` NaN comparisons of
  IEEE floats are embedded by the `f*` helpers below.
- Status strings built by f-strings are embedded as constructors of `StatusE`
  carrying the interpolated numbers; the fixed text of each f-string is
  recorded in a comment next to its constructor.  Number formatting such as
  `:.2f` is abstracted away (no claim depends on rendered digits).
- Wall-clock inputs (`datetime.now()` day counts) and network snapshots are
  passed as explicit parameters: they are external inputs of the engine.
-/

namespace BTC

/-- Last `n` elements of a list (`pandas` `.tail(n)` / the window of a rolling
mean evaluated at the last row). -/
def lastN {α : Type} (n : ℕ) (xs : List α) : List α :=
  xs.drop (xs.length - n)

section FloatOps

variable {α : Type} [LinearOrderedField α]

/-- Arithmetic mean of the last `w` elements
(`df['price'].rolling(window=w).mean().iloc[-1]`, assuming `w ≤ len`). -/
def meanLast (w : ℕ) (xs : List α) : α :=
  (lastN w xs).sum / (w : α)

/-- `rolling(window=w).mean().iloc[-1]` including the NaN case: pandas emits
NaN (here `none`) while fewer than `w` rows are available. -/
def rollingMeanLast (w : ℕ) (xs : List α) : Option α :=
  if w ≤ xs.length then some (meanLast w xs) else none

/-- NaN-propagating subtraction on floats. -/
def fsub : Option α → Option α → Option α
  | some x, some y => some (x - y)
  | _, _ => none

/-- NaN-propagating multiplication on floats. -/
def fmul : Option α → Option α → Option α
  | some x, some y => some (x * y)
  | _, _ => none

/-- NaN-propagating division on floats.  A zero divisor is mapped to `none`;
in the source a zero divisor would give IEEE `inf`, but every division in the
embedded code divides by a mean of strictly positive prices, so the case is
unreachable under the PriceSeries invariant `price > 0`. -/
def fdiv : Option α → Option α → Option α
  | some x, some y => if y = 0 then none else some (x / y)
  | _, _ => none

/-- IEEE `>=` on possibly-NaN floats: any comparison with NaN is `False`. -/
def fge : Option α → Option α → Bool
  | some x, some y => decide (y ≤ x)
  | _, _ => false

/-- IEEE `<=` on possibly-NaN floats: any comparison with NaN is `False`. -/
def fle : Option α → Option α → Bool
  | some x, some y => decide (x ≤ y)
  | _, _ => false

end FloatOps

/-- Embedding of the status strings produced by the embedded indicator
functions.  Each constructor is one (f-)string of the source; interpolated
numbers are carried as arguments. -/
inductive StatusE (α : Type) where
  /-- "数据不足" -/
  | dataInsufficient
  /-- f-string 低于绿线 (`ma2y`) - 世代抄底 -/
  | belowGreen (ma2y : α)
  /-- f-string 高于红线 (`ma2y_x5`) - 世代逃顶 -/
  | aboveRed (ma2yX5 : α)
  /-- f-string 接近买入区 (`ma2y`) -/
  | nearBuyZone (ma2y : α)
  /-- f-string 接近卖出区 (`ma2y_x5`) -/
  | nearSellZone (ma2yX5 : α)
  /-- "区间震荡" -/
  | rangebound
  /-- "已交叉! 顶部信号" -/
  | crossedTop
  /-- f-string 差距 `gap_pct`%, 接近交叉 -/
  | gapNearCross (gapPct : Option α)
  /-- f-string 差距 `gap_pct`%, 安全 -/
  | gapSafe (gapPct : Option α)
  /-- f-string 抄底区 (`ahr999`) -/
  | chaoDiQu (v : α)
  /-- f-string 定投区 (`ahr999`) -/
  | dingTouQu (v : α)
  /-- f-string 止盈区 (`ahr999`) -/
  | zhiYingQu (v : α)
  /-- f-string 极度低估 (`mm`) - 抄底 -/
  | mayerExtremeLow (mm : α)
  /-- f-string 低估区域 (`mm`) -/
  | mayerLow (mm : α)
  /-- f-string 极度高估 (`mm`) - 逃顶 -/
  | mayerExtremeHigh (mm : α)
  /-- f-string 高估区域 (`mm`) -/
  | mayerHigh (mm : α)
  /-- f-string 合理估值 (`mm`) -/
  | mayerFair (mm : α)
  /-- "数据源连接失败 (SSL)" -/
  | fundingFailed
  /-- f-string 过热 (`rate`%) - 多头拥挤 -/
  | fundingHot (rate : α)
  /-- f-string 偏多 (`rate`%) -/
  | fundingLeanLong (rate : α)
  /-- f-string 中性 (`rate`%) -/
  | fundingNeutral (rate : α)
  /-- f-string 偏空 (`rate`%) -/
  | fundingLeanShort (rate : α)
  /-- f-string 恐慌 (`rate`%) - 空头拥挤 -/
  | fundingPanic (rate : α)
  /-- "API 暂不可用" -/
  | apiUnavailable
  /-- f-string 极度偏多 (`ratio`) 多`long_pct`%/空`short_pct`% suffixed by the source tag -/
  | lsExtremeLong (ratio longPct shortPct : α) (src : String)
  /-- f-string 偏多 (`ratio`) suffixed by the source tag -/
  | lsLeanLong (ratio : α) (src : String)
  /-- f-string 均衡 (`ratio`) suffixed by the source tag -/
  | lsBalanced (ratio : α) (src : String)
  /-- f-string 偏空 (`ratio`) suffixed by the source tag -/
  | lsLeanShort (ratio : α) (src : String)
  /-- f-string 极度偏空 (`ratio`) suffixed by the source tag -/
  | lsExtremeShort (ratio : α) (src : String)
  /-- f-string 极度恐惧 (`value`) - 买入机会 -/
  | fgExtremeFear (v : ℤ)
  /-- f-string 恐惧 (`value`) - 偏买入 -/
  | fgFear (v : ℤ)
  /-- f-string 中性 (`value`) -/
  | fgNeutral (v : ℤ)
  /-- f-string 贪婪 (`value`) - 谨慎 -/
  | fgGreed (v : ℤ)
  /-- f-string 极度贪婪 (`value`) - 风险高 -/
  | fgExtremeGreed (v : ℤ)
  deriving DecidableEq

/-- Embedding of the `IndicatorResult` dataclass.  `value` is `Option α` with
`none` for NaN; `score` is declared `int` in the source but is assigned values
such as `0.5`, so it is embedded as `ℚ`. -/
structure IndicatorResult (α : Type) where
  name : String
  value : Option α
  score : ℚ
  color : String
  status : StatusE α
  priority : String
  description : String := ""
  method : String := ""
  url : Option String := none
  deriving DecidableEq

/-- The static weight table `WEIGHTS` (btc_dashboard.py lines 2888-2914). -/
def WEIGHTS : List (String × ℚ) :=
  [("Mayer Multiple", 0.10),
   ("Pi Cycle Top", 0.08),
   ("减半周期", 0.08),
   ("Ahr999", 0.08),
   ("幂律走廊", 0.08),
   ("2-Year MA Mult", 0.08),
   ("200-Week Heatmap", 0.08),
   ("Golden Ratio", 0.08),
   ("RSI(14)", 0.06),
   ("MACD", 0.06),
   ("布林带", 0.05),
   ("恐惧贪婪指数", 0.06),
   ("资金费率", 0.05),
   ("多空比", 0.05),
   ("最大痛点", 0.03),
   ("BTC市占率", 0.02),
   ("ETF资金流", 0.02),
   ("公司持仓", 0.01),
   ("交易所余额", 0.00),
   ("全网算力", 0.01),
   ("均衡价格", 0.03),
   ("长期持有者(CDD)", 0.08)]

/-- The per-indicator accumulation loop of `calculate_total_score`: starting
from `total = 0`, `weight_sum = 0`, each entry whose `value` is not NaN and
whose key is in the weight table contributes `w * score` to the total and `w`
to the weight sum. -/
def scoreFold {α : Type} (w : List (String × ℚ))
    (indicators : List (String × IndicatorResult α)) : ℚ × ℚ :=
  indicators.foldl
    (fun acc p =>
      match p.2.value, w.lookup p.1 with
      | some _, some wt => (acc.1 + wt * p.2.score, acc.2 + wt)
      | _, _ => acc)
    (0, 0)

/-- `calculate_total_score` (btc_dashboard.py lines 2917-2949), with the
module-level `WEIGHTS` it closes over made an explicit first argument.  The
indicator dict is embedded as an association list. -/
def calculate_total_score_with {α : Type} (w : List (String × ℚ))
    (indicators : List (String × IndicatorResult α)) : ℚ × String :=
  let t := scoreFold w indicators
  let normalized : ℚ := if 0 < t.2 then t.1 / t.2 else 0
  let advice : String :=
    if 0.8 ≤ normalized then "强烈买入 (Strong Buy)"
    else if 0.4 ≤ normalized then "买入 (Buy)"
    else if 0.1 ≤ normalized then "增持 (Accumulate)"
    else if -0.1 ≤ normalized then "持有/观望 (Hold)"
    else if -0.4 ≤ normalized then "减仓 (Reduce)"
    else if -0.8 ≤ normalized then "卖出 (Sell)"
    else "清仓 (Strong Sell)"
  (normalized, advice)

/-- `calculate_total_score` as called by the dashboard: fixed to the global
`WEIGHTS` table. -/
def calculate_total_score {α : Type}
    (indicators : List (String × IndicatorResult α)) : ℚ × String :=
  calculate_total_score_with WEIGHTS indicators

/-- The entries of an indicator map that the aggregator includes: `value` not
NaN and key present in the weight table (the exclusion rule of spec section
4.4). -/
def includedW {α : Type} (w : List (String × ℚ))
    (indicators : List (String × IndicatorResult α)) :
    List (String × IndicatorResult α) :=
  indicators.filter (fun p => p.2.value.isSome && (w.lookup p.1).isSome)

/-- Weight of a key under a weight table (0 if absent); used only to state
the aggregation formula. -/
def weightOf (w : List (String × ℚ)) (name : String) : ℚ :=
  (w.lookup name).getD 0

/-- The data the aggregator is allowed to read from one map entry: its key,
whether its value is NaN, and its score (used to state claim C10). -/
def viewKey {α : Type} (p : String × IndicatorResult α) : String × Bool × ℚ :=
  (p.1, p.2.value.isSome, p.2.score)

section WindowIndicators

variable {α : Type} [LinearOrderedField α]

/-- `calc_two_year_ma_multiplier` (btc_dashboard.py lines 248-296).  Note the
insufficient-data branch returns `value=0` — the literal `0`, not NaN. -/
def calc_two_year_ma_multiplier (xs : List α) : IndicatorResult α :=
  if xs.length < 730 then
    { name := "2-Year MA Mult", value := some 0, score := 0, color := "⚪",
      status := .dataInsufficient, priority := "P0" }
  else
    let current := xs.getLastD 0
    let ma2y := meanLast 730 xs
    let ma2y_x5 := ma2y * 5
    let b : ℚ × String × StatusE α :=
      if current < ma2y then (1, "🟢", .belowGreen ma2y)
      else if ma2y_x5 < current then (-1, "🔴", .aboveRed ma2y_x5)
      else if current < ma2y * 1.5 then (0.5, "🟢", .nearBuyZone ma2y)
      else if ma2y_x5 * 0.8 < current then (-0.5, "🟠", .nearSellZone ma2y_x5)
      else (0, "🟡", .rangebound)
    { name := "2-Year MA Mult", value := some (current / ma2y),
      score := b.1, color := b.2.1, status := b.2.2, priority := "P0",
      url := some "https://www.lookintobitcoin.com/charts/bitcoin-investor-tool/",
      description := "2年均线乘数指标用于识别比特币市场周期中的买卖机会。",
      method := "由2年移动平均线（730日线）及其5倍线构成。价格低于2年均线为买入区，高于5倍线为卖出区。" }

/-- `calc_pi_cycle` (btc_dashboard.py lines 407-441).  There is no length
check: on a short series the rolling means are NaN and the NaN comparisons
below are all `False`.  The result is `none` only for an empty frame, where
`df.iloc[-1]` raises `IndexError`. -/
def calc_pi_cycle (xs : List α) : Option (IndicatorResult α) :=
  match xs with
  | [] => none
  | _ :: _ =>
    let ma111 := rollingMeanLast 111 xs
    let ma350x2 := (rollingMeanLast 350 xs).map (fun m => m * 2)
    let gap_pct := fmul (fdiv (fsub ma350x2 ma111) ma350x2) (some 100)
    let b : ℚ × String × StatusE α :=
      if fge ma111 ma350x2 then (-1, "🔴", .crossedTop)
      else if fle gap_pct (some 20) then (0, "🟡", .gapNearCross gap_pct)
      else (1, "🟢", .gapSafe gap_pct)
    some { name := "Pi Cycle Top", value := gap_pct,
           score := b.1, color := b.2.1, status := b.2.2, priority := "P0",
           url := some "https://www.lookintobitcoin.com/charts/pi-cycle-top-indicator/",
           description := "Pi Cycle Top 指标用于识别比特币市场周期的顶部，历史上准确率极高。",
           method := "由两条移动平均线组成：111日均线 (111DMA) 和 350日均线的两倍 (350DMA x 2)。当 111DMA 上穿 350DMA x 2 时，预示市场顶部。" }

/-- `calc_mayer_multiple` (btc_dashboard.py lines 813-859). -/
def calc_mayer_multiple (xs : List α) : IndicatorResult α :=
  if xs.length < 200 then
    { name := "Mayer Multiple", value := none, score := 0, color := "⚪",
      status := .dataInsufficient, priority := "P0" }
  else
    let mm := xs.getLastD 0 / meanLast 200 xs
    let b : ℚ × String × StatusE α :=
      if mm < 0.6 then (1, "🟢", .mayerExtremeLow mm)
      else if mm < 1.1 then (0.5, "🟢", .mayerLow mm)
      else if 2.4 < mm then (-1, "🔴", .mayerExtremeHigh mm)
      else if 1.8 < mm then (-0.5, "🟡", .mayerHigh mm)
      else (0, "🟡", .mayerFair mm)
    { name := "Mayer Multiple", value := some mm,
      score := b.1, color := b.2.1, status := b.2.2, priority := "P0",
      url := some "https://charts.bitbo.io/mayer-multiple/",
      description := "梅耶倍数通过比特币价格与200日移动平均线的比值，评估市场是否处于超买或超卖状态。",
      method := "梅耶倍数 = 价格 / 200日均线。通常低于0.6为极度低估，高于2.4为极度高估。" }

end WindowIndicators

section ScalarIndicators

variable {α : Type} [LinearOrderedField α]

/-- `calc_funding_rate` (btc_dashboard.py lines 1373-1471).  The ordered
fallback chain Binance → CoinGecko → Bybit is summarised by its outcome: the
fetched rate already multiplied by 100, or `none` when every source failed.
Note the all-failed branch returns `value=0.0` — the source comments it
deliberately: Return 0.0 instead of NaN. -/
def calc_funding_rate (rate : Option α) : IndicatorResult α :=
  match rate with
  | none =>
    { name := "资金费率", value := some 0, score := 0, color := "⚪",
      status := .fundingFailed, priority := "P1",
      description := "资金费率...",
      method := "因网络或SSL问题无法连接 Binance/Bybit API。请检查网络连接。" }
  | some r =>
    let b : ℚ × String × StatusE α :=
      if 0.1 < r then (-1, "🔴", .fundingHot r)
      else if 0.03 < r then (-0.5, "🟡", .fundingLeanLong r)
      else if -0.03 < r then (0, "🟡", .fundingNeutral r)
      else if -0.1 < r then (0.5, "🟢", .fundingLeanShort r)
      else (1, "🟢", .fundingPanic r)
    { name := "资金费率", value := some r,
      score := b.1, color := b.2.1, status := b.2.2, priority := "P1",
      url := some "https://www.binance.com/zh-CN/futures/funding-rate",
      description := "资金费率是永续合约市场特有的机制，用于平衡多头和空头持仓。",
      method := "正费率表示多头支付空头，市场偏多；负费率表示空头支付多头，市场偏空。极端费率可能预示市场反转。" }

/-- `calc_long_short_ratio` (btc_dashboard.py lines 1474-1553).  The OKX →
Binance fallback chain is summarised by its outcome: the fetched ratio with
its source tag, or `none` when both sources failed. -/
def calc_long_short_ratio (fetched : Option (α × String)) : IndicatorResult α :=
  match fetched with
  | some (ratio, source) =>
    let long_pct := ratio / (1 + ratio) * 100
    let short_pct := 100 - long_pct
    let b : ℚ × String × StatusE α :=
      if 2.0 < ratio then (-1, "🔴", .lsExtremeLong ratio long_pct short_pct source)
      else if 1.2 < ratio then (-0.5, "🟡", .lsLeanLong ratio source)
      else if 0.8 < ratio then (0, "🟡", .lsBalanced ratio source)
      else if 0.5 < ratio then (0.5, "🟢", .lsLeanShort ratio source)
      else (1, "🟢", .lsExtremeShort ratio source)
    { name := "多空比", value := some ratio,
      score := b.1, color := b.2.1, status := b.2.2, priority := "P1",
      url := some "https://www.coinglass.com/zh/LongShortRatio",
      description := "多空比反映了市场上多头和空头持仓的相对比例，是衡量市场情绪的指标。",
      method := "通过交易所API获取多头账户与空头账户的比例。极端的多空比可能预示着市场情绪的过度集中，存在反转风险。" }
  | none =>
    { name := "多空比", value := none, score := 0, color := "⚪",
      status := .apiUnavailable, priority := "P1" }

/-- `calc_fear_greed_index` (btc_dashboard.py lines 1319-1370), the sentiment
index.  The alternative.me fetch is summarised by its outcome: the integer
index value, or `none` on any failure. -/
def calc_fear_greed_index (snapshot : Option ℤ) : IndicatorResult α :=
  match snapshot with
  | some v =>
    let b : ℚ × String × StatusE α :=
      if v ≤ 25 then (1, "🟢", .fgExtremeFear v)
      else if v ≤ 45 then (0.5, "🟢", .fgFear v)
      else if v ≤ 55 then (0, "🟡", .fgNeutral v)
      else if v ≤ 75 then (-0.5, "🟡", .fgGreed v)
      else (-1, "🔴", .fgExtremeGreed v)
    { name := "恐惧贪婪指数", value := some ((v : ℤ) : α),
      score := b.1, color := b.2.1, status := b.2.2, priority := "P1",
      url := some "https://alternative.me/crypto/fear-and-greed-index/",
      description := "恐惧贪婪指数衡量市场情绪，0代表极度恐惧，100代表极度贪婪。",
      method := "该指数综合了波动性、市场成交量、社交媒体情绪、市场主导地位和谷歌趋势等多个因素。极度恐惧通常是买入机会，极度贪婪则需谨慎。" }
  | none =>
    { name := "恐惧贪婪指数", value := none, score := 0, color := "⚪",
      status := .apiUnavailable, priority := "P1" }

end ScalarIndicators

/-! ### Multi-timeframe voter

`calc_rsi` (btc_dashboard.py lines 866-1074) and `calc_macd` (lines 1077-1254)
evaluate one base formula per timeframe (4H, 12H, daily, weekly resample,
monthly resample, yearly resample for RSI; OKX 4H/12H klines, daily, weekly,
monthly for MACD) and then aggregate the per-timeframe classifications.  The
per-timeframe evaluations depend on network klines and calendar resampling;
they are summarised by their outcomes: the list of per-timeframe records that
were actually collected (a timeframe that lacks data is silently absent from
the list, exactly as in the source).  The aggregation stage — the code the
claim C7 is about (lines 1014-1045 and 1192-1230) — is embedded below. -/

/-- One collected RSI timeframe record: the `trend` bucket 超买/超卖/中性 and
the local `score` assigned by `calculate_single_rsi`. -/
inductive RsiTrend where
  | overbought
  | oversold
  | neutral
  deriving DecidableEq

/-- The `{"trend": _, "score": _}` fields of one `calculate_single_rsi`
result that the aggregation stage reads. -/
structure RsiTF where
  trend : RsiTrend
  score : ℚ
  deriving DecidableEq

/-- The running tallies kept by the `calc_rsi` counting branches:
`overbought_count`, `oversold_count`, `neutral_count`, `total_score`. -/
structure RsiTally where
  overbought : ℕ
  oversold : ℕ
  neutral : ℕ
  totalScore : ℚ
  deriving DecidableEq

/-- The per-timeframe counting of `calc_rsi`: each collected result bumps its
bucket count and adds its local score to `total_score`. -/
def rsiTally (tfs : List RsiTF) : RsiTally :=
  tfs.foldl
    (fun acc t =>
      match t.trend with
      | .overbought => { acc with overbought := acc.overbought + 1, totalScore := acc.totalScore + t.score }
      | .oversold => { acc with oversold := acc.oversold + 1, totalScore := acc.totalScore + t.score }
      | .neutral => { acc with neutral := acc.neutral + 1, totalScore := acc.totalScore + t.score })
    ⟨0, 0, 0, 0⟩

/-- The summary statuses of `calc_rsi` (the part of the f-string before the
appended per-timeframe detail string). -/
inductive RsiSummary where
  /-- "数据不足" -/
  | dataInsufficient
  /-- f-string 多周期超买 (`ob`/`total`) -/
  | multiOverbought (ob total : ℕ)
  /-- f-string 偏超买 (`ob`/`total`) -/
  | leanOverbought (ob total : ℕ)
  /-- f-string 多周期超卖 (`os`/`total`) -/
  | multiOversold (os total : ℕ)
  /-- f-string 偏超卖 (`os`/`total`) -/
  | leanOversold (os total : ℕ)
  /-- f-string 多周期中性 (`neutral`/`total`) -/
  | multiNeutral (neutral total : ℕ)
  deriving DecidableEq

/-- The summary stage of `calc_rsi` (btc_dashboard.py lines 1014-1045):
score, color and summary status from the bucket counts. -/
def rsiVote (tfs : List RsiTF) : ℚ × String × RsiSummary :=
  let t := rsiTally tfs
  let total := tfs.length
  if total = 0 then (0, "⚪", .dataInsufficient)
  else if t.oversold < t.overbought ∧ t.neutral < t.overbought then
    if (total : ℚ) * 0.8 ≤ (t.overbought : ℚ) then (-1, "🔴", .multiOverbought t.overbought total)
    else (-0.5, "🟡", .leanOverbought t.overbought total)
  else if t.overbought < t.oversold ∧ t.neutral < t.oversold then
    if (total : ℚ) * 0.8 ≤ (t.oversold : ℚ) then (1, "🟢", .multiOversold t.oversold total)
    else (0.5, "🟢", .leanOversold t.oversold total)
  else (0, "🟡", .multiNeutral t.neutral total)

/-- One collected MACD timeframe record: the trend bucket 多/空 and the local
`strength` assigned by `calculate_single_macd`. -/
inductive MacdTrend where
  | bullish
  | bearish
  deriving DecidableEq

/-- The `{"trend": _, "strength": _}` fields of one `calculate_single_macd`
result that `add_result` reads. -/
structure MacdTF where
  trend : MacdTrend
  strength : ℚ
  deriving DecidableEq

/-- The running tallies of `calc_macd`'s `add_result`: `bullish_count`,
`bearish_count` and the signed `total_strength` (bullish strengths added,
bearish strengths subtracted). -/
structure MacdTally where
  bullish : ℕ
  bearish : ℕ
  totalStrength : ℚ
  deriving DecidableEq

/-- The `add_result` accumulation of `calc_macd` over the collected
timeframes. -/
def macdTally (tfs : List MacdTF) : MacdTally :=
  tfs.foldl
    (fun acc t =>
      match t.trend with
      | .bullish => { acc with bullish := acc.bullish + 1, totalStrength := acc.totalStrength + t.strength }
      | .bearish => { acc with bearish := acc.bearish + 1, totalStrength := acc.totalStrength - t.strength })
    ⟨0, 0, 0⟩

/-- The summary statuses of `calc_macd` (before the appended detail string). -/
inductive MacdSummary where
  /-- "数据不足" -/
  | dataInsufficient
  /-- f-string 强势多头 (`bull`/`total`) -/
  | strongBull (bull total : ℕ)
  /-- f-string 偏多 (`bull`/`total`) -/
  | leanBull (bull total : ℕ)
  /-- f-string 多空分歧 (`bull`多/`bear`空) reached from the bullish branch -/
  | divergenceBull (bull bear : ℕ)
  /-- f-string 强势空头 (`bear`/`total`) -/
  | strongBear (bear total : ℕ)
  /-- f-string 偏空 (`bear`/`total`) -/
  | leanBear (bear total : ℕ)
  /-- f-string 多空分歧 (`bull`多/`bear`空) reached from the bearish branch -/
  | divergenceBear (bull bear : ℕ)
  /-- f-string 多空平衡 (`bull`多/`bear`空) -/
  | balance (bull bear : ℕ)
  deriving DecidableEq

/-- The summary stage of `calc_macd` (btc_dashboard.py lines 1192-1230):
score, color and summary status from the bucket counts.  The indicator's
`value` field is `total_strength` (see `macdTally`). -/
def macdVote (tfs : List MacdTF) : ℚ × String × MacdSummary :=
  let t := macdTally tfs
  let total := tfs.length
  if total = 0 then (0, "⚪", .dataInsufficient)
  else if t.bearish < t.bullish then
    let ratio : ℚ := (t.bullish : ℚ) / (total : ℚ)
    if 0.8 ≤ ratio then (1, "🟢", .strongBull t.bullish total)
    else if 0.5 ≤ ratio then (0.5, "🟢", .leanBull t.bullish total)
    else (0.2, "🟡", .divergenceBull t.bullish t.bearish)
  else if t.bullish < t.bearish then
    let ratio : ℚ := (t.bearish : ℚ) / (total : ℚ)
    if 0.8 ≤ ratio then (-1, "🔴", .strongBear t.bearish total)
    else if 0.5 ≤ ratio then (-0.5, "🔴", .leanBear t.bearish total)
    else (-0.2, "🟡", .divergenceBear t.bullish t.bearish)
  else (0, "🟡", .balance t.bullish t.bearish)

/-! ### Ahr999 point computation and history projection

These functions use `np.exp`, `np.log`, `np.log10` and `10 ** x` on floats;
they are embedded over `ℝ` (hence `noncomputable`).  They are faithful on
series of strictly positive prices — the PriceSeries invariant `price > 0` of
spec section 3 — since for non-positive inputs `np.log` yields NaN or `-inf`
while `Real.log` yields junk values. -/

/-- `AHR999_A` (btc_dashboard.py line 89): the fitted intercept. -/
def AHR999_A : ℝ := -17.01

/-- `AHR999_B` (btc_dashboard.py line 90): the fitted slope. -/
def AHR999_B : ℝ := 5.84

/-- `np.exp(np.mean(np.log(xs)))` — the trailing geometric mean used as the
200-day accumulation cost. -/
noncomputable def geoMean (xs : List ℝ) : ℝ :=
  Real.exp ((xs.map Real.log).sum / (xs.length : ℝ))

/-- The 指数增长估值 of `calc_ahr999`: `10 ** (AHR999_B * log10(days) +
AHR999_A)` when `days_since_genesis > 0`, else the fallback `1.0`. -/
noncomputable def ahrFairValue (d : ℤ) : ℝ :=
  if 0 < d then (10 : ℝ) ^ (AHR999_B * Real.logb 10 (d : ℝ) + AHR999_A) else 1.0

/-- `calc_ahr999` (btc_dashboard.py lines 693-764).  `days_since_genesis`
comes from `datetime.now()` in the source and is passed explicitly here.
The `try`/`except` around the geometric mean (whose handler would fall back
to `recent_200.mean()`) is omitted: `np.exp`/`np.log`/`np.mean` do not raise
on float arrays, so the handler is unreachable.  `none` is returned only for
an empty frame, where `df['price'].iloc[-1]` raises `IndexError`. -/
noncomputable def calc_ahr999 (prices : List ℝ) (daysSinceGenesis : ℤ) :
    Option (IndicatorResult ℝ) :=
  match prices with
  | [] => none
  | _ :: _ =>
    let recent_200 := lastN 200 prices
    let current_price := prices.getLastD 0
    let dca_cost_200 := geoMean recent_200
    let exp_growth_value := ahrFairValue daysSinceGenesis
    let ahr999 : ℝ :=
      if 0 < dca_cost_200 ∧ 0 < exp_growth_value then
        (current_price / dca_cost_200) * (current_price / exp_growth_value)
      else 1.0
    let b : ℚ × String × StatusE ℝ :=
      if ahr999 < 0.45 then (1, "🟢", .chaoDiQu ahr999)
      else if ahr999 < 1.2 then (0, "🟡", .dingTouQu ahr999)
      else (-1, "🔴", .zhiYingQu ahr999)
    some { name := "Ahr999", value := some ahr999,
           score := b.1, color := b.2.1, status := b.2.2, priority := "P1",
           url := some "https://www.coinglass.com/pro/i/ahr999",
           description := "Ahr999 指数用于辅助比特币定投和抄底，评估价格是否处于低估区间。",
           method := "Ahr999 = (价格/200日定投成本) * (价格/指数增长估值)。< 0.45 抄底，0.45-1.2 定投，> 1.25 起飞。" }

/-- The Ahr999 point value on a series whose wall-clock day count is `d`:
the value `calc_ahr999` produces once its positivity guards succeed.  Used
only to state theorems. -/
noncomputable def ahrValue (prices : List ℝ) (d : ℤ) : ℝ :=
  (prices.getLastD 0 / geoMean (lastN 200 prices)) *
    (prices.getLastD 0 / ahrFairValue d)

/-- Round to integer, ties to even — the rounding mode of Python `round`.
(The binary-float artifacts of rounding a double are abstracted away.) -/
noncomputable def roundHalfEven (x : ℝ) : ℤ :=
  if x - ⌊x⌋ = 1 / 2 then (if Even ⌊x⌋ then ⌊x⌋ else ⌊x⌋ + 1) else round x

/-- Python `round(x, n)` on floats, idealised over exact reals. -/
noncomputable def pyRound (n : ℕ) (x : ℝ) : ℝ :=
  (roundHalfEven (x * 10 ^ n) : ℝ) / 10 ^ n

/-- The `HistorySeries` dict returned by the history projectors.  The source
stores each date as a formatted string; the embedding keeps the day count
since genesis.  Threshold colors and labels are omitted; the numeric
threshold of each named band is kept. -/
structure HistorySeries where
  indicator : String
  dates : List ℤ
  values : List ℝ
  thresholds : List (String × ℚ)

/-- `df['gmean200']` of `get_ahr999_history` evaluated at absolute row `i`:
`np.exp` of the rolling 200-mean of `np.log(price)`, which is the geometric
mean of the last 200 prices up to row `i`, and NaN (`none`) while fewer than
200 rows are available. -/
noncomputable def gmean200At (prices : List ℝ) (i : ℕ) : Option ℝ :=
  if 200 ≤ i + 1 then some (geoMean (lastN 200 (prices.take (i + 1)))) else none

/-- One iteration of the `get_ahr999_history` loop, at absolute row `i` with
date `d` (days since genesis) and price `p`: the appended `(date, value)`
pair, or `none` when the iteration appends nothing.  The `pd.isna(ma200)`
fallback recomputes the geometric mean over `df.loc[:date].tail(200)`, which
is nonempty since it contains row `i` itself. -/
noncomputable def ahrHistoryPoint (prices : List ℝ) (i : ℕ) (d : ℤ) (p : ℝ) :
    Option (ℤ × ℝ) :=
  if 0 < d then
    let fair_price := (10 : ℝ) ^ (AHR999_A + AHR999_B * Real.logb 10 (d : ℝ))
    let ma200 :=
      match gmean200At prices i with
      | some m => m
      | none => geoMean (lastN 200 (prices.take (i + 1)))
    if 0 < fair_price ∧ 0 < ma200 then
      some (d, pyRound 3 ((p / ma200) * (p / fair_price)))
    else none
  else none

/-- `get_ahr999_history` (btc_dashboard.py lines 2548-2601).  A row is a
`(days-since-genesis, price)` pair; the loop runs over the last `days` rows
with access to the full-series rolling geometric mean. -/
noncomputable def get_ahr999_history (rows : List (ℤ × ℝ)) (days : ℕ) :
    HistorySeries :=
  let prices := rows.map Prod.snd
  let pts := (lastN days rows.enum).filterMap
    (fun q => ahrHistoryPoint prices q.1 q.2.1 q.2.2)
  { indicator := "Ahr999",
    dates := pts.map Prod.fst,
    values := pts.map Prod.snd,
    thresholds := [("buy", 0.45), ("dca", 1.2), ("sell", 5.0)] }

/-! ## Theorems -/

/-- Every weight the global table can return is non-negative. -/
lemma weightOf_WEIGHTS_nonneg (name : String) : 0 ≤ weightOf WEIGHTS name := by
  simp only [weightOf, WEIGHTS, List.lookup]
  repeat' split <;> norm_num

/-- The accumulation loop of `calculate_total_score` computes the sums of
`w·score` and of `w` over exactly the included entries. -/
lemma scoreFold_eq_sums {α : Type} (w : List (String × ℚ)) :
    ∀ (inds : List (String × IndicatorResult α)) (acc : ℚ × ℚ),
      inds.foldl
        (fun acc p =>
          match p.2.value, w.lookup p.1 with
          | some _, some wt => (acc.1 + wt * p.2.score, acc.2 + wt)
          | _, _ => acc)
        acc
      = (acc.1 + ((includedW w inds).map (fun p => weightOf w p.1 * p.2.score)).sum,
         acc.2 + ((includedW w inds).map (fun p => weightOf w p.1)).sum)
  | [], acc => by simp [includedW]
  | p :: rest, acc => by
    rcases hv : p.2.value with _ | v <;> rcases hw : w.lookup p.1 with _ | wt <;>
      simp [List.foldl_cons, hv, hw, includedW, List.filter_cons,
        scoreFold_eq_sums w rest, weightOf, add_assoc]

/-- `scoreFold` itself, as sums over the included subset. -/
lemma scoreFold_eq {α : Type} (w : List (String × ℚ))
    (inds : List (String × IndicatorResult α)) :
    scoreFold w inds
      = (((includedW w inds).map (fun p => weightOf w p.1 * p.2.score)).sum,
         ((includedW w inds).map (fun p => weightOf w p.1)).sum) := by
  have h := scoreFold_eq_sums w inds (0, 0)
  simpa [scoreFold] using h

/-- The denominator of the aggregation is non-negative under `WEIGHTS`. -/
lemma denom_nonneg {α : Type} (inds : List (String × IndicatorResult α)) :
    0 ≤ ((includedW WEIGHTS inds).map (fun p => weightOf WEIGHTS p.1)).sum := by
  apply List.sum_nonneg
  intro x hx
  obtain ⟨p, _, rfl⟩ := List.mem_map.mp hx
  exact weightOf_WEIGHTS_nonneg p.1

/-- If the denominator vanishes, so does the numerator (all weights are
non-negative, so a zero weight sum means every included weight is zero). -/
lemma numer_eq_zero_of_denom_eq_zero {α : Type}
    (inds : List (String × IndicatorResult α))
    (h : ((includedW WEIGHTS inds).map (fun p => weightOf WEIGHTS p.1)).sum = 0) :
    ((includedW WEIGHTS inds).map (fun p => weightOf WEIGHTS p.1 * p.2.score)).sum = 0 := by
  have hz : ∀ p ∈ includedW WEIGHTS inds, weightOf WEIGHTS p.1 = 0 := by
    intro p hp
    have hle : weightOf WEIGHTS p.1
        ≤ ((includedW WEIGHTS inds).map (fun p => weightOf WEIGHTS p.1)).sum := by
      apply List.single_le_sum
      · intro x hx
        obtain ⟨q, _, rfl⟩ := List.mem_map.mp hx
        exact weightOf_WEIGHTS_nonneg q.1
      · exact List.mem_map.mpr ⟨p, hp, rfl⟩
    exact le_antisymm (h ▸ hle) (weightOf_WEIGHTS_nonneg p.1)
  apply List.sum_eq_zero
  intro x hx
  obtain ⟨p, hp, rfl⟩ := List.mem_map.mp hx
  rw [hz p hp, zero_mul]

/-- The first component of `calculate_total_score` is always the quotient of
the two included-subset sums (with `ℚ`'s `x / 0 = 0` convention agreeing with
the source's `weight_sum > 0` guard). -/
lemma total_score_fst {α : Type} (inds : List (String × IndicatorResult α)) :
    (calculate_total_score inds).1
      = ((includedW WEIGHTS inds).map (fun p => weightOf WEIGHTS p.1 * p.2.score)).sum
        / ((includedW WEIGHTS inds).map (fun p => weightOf WEIGHTS p.1)).sum := by
  unfold calculate_total_score calculate_total_score_with
  rw [scoreFold_eq]
  by_cases hpos :
      0 < ((includedW WEIGHTS inds).map (fun p => weightOf WEIGHTS p.1)).sum
  · simp [hpos]
  · have h0 : ((includedW WEIGHTS inds).map (fun p => weightOf WEIGHTS p.1)).sum = 0 :=
      le_antisymm (not_lt.mp hpos) (denom_nonneg inds)
    simp [hpos, h0, numer_eq_zero_of_denom_eq_zero inds h0]

/-- C1: `calculate_total_score` returns `Σ(wᵢ·scoreᵢ)/Σ(wᵢ)` over exactly the
entries whose value is not NaN and whose key is in the weight table; an empty
included subset yields 0; and the two-indicator example — A with weight 1 and
score 0.6, B with weight 1 and value NaN — yields exactly 0.6, B contributing
to neither numerator nor denominator. -/
theorem claim_C1 :
    (∀ (α : Type) (inds : List (String × IndicatorResult α)),
        (calculate_total_score inds).1
          = ((includedW WEIGHTS inds).map (fun p => weightOf WEIGHTS p.1 * p.2.score)).sum
            / ((includedW WEIGHTS inds).map (fun p => weightOf WEIGHTS p.1)).sum
      ∧ (includedW WEIGHTS inds = [] → (calculate_total_score inds).1 = 0))
    ∧ (calculate_total_score_with [("A", 1), ("B", 1)]
        [("A", { name := "A", value := some (1 : ℚ), score := 0.6, color := "🟢",
                 status := .rangebound, priority := "P1" }),
         ("B", { name := "B", value := none, score := 0, color := "⚪",
                 status := .dataInsufficient, priority := "P1" })]).1 = 0.6 := by
  refine ⟨fun α inds => ⟨total_score_fst inds, fun hempty => ?_⟩, ?_⟩
  · rw [total_score_fst inds, hempty]
    simp
  · norm_num [calculate_total_score_with, scoreFold, List.lookup]

/-- Witness for C1: a map whose single key is absent from the weight table
has an empty included subset and total score 0. -/
theorem claim_C1_witness :
    includedW WEIGHTS
        [("no such indicator",
          ({ name := "x", value := some 1, score := 1, color := "🟢",
             status := .rangebound, priority := "P0" } : IndicatorResult ℚ))] = []
    ∧ (calculate_total_score
        [("no such indicator",
          ({ name := "x", value := some 1, score := 1, color := "🟢",
             status := .rangebound, priority := "P0" } : IndicatorResult ℚ))]).1 = 0 := by
  have hempty : includedW WEIGHTS
      [("no such indicator",
        ({ name := "x", value := some 1, score := 1, color := "🟢",
           status := .rangebound, priority := "P0" } : IndicatorResult ℚ))] = [] := by
    simp [includedW, WEIGHTS, List.lookup]
  exact ⟨hempty, ((claim_C1.1 ℚ _).2) hempty⟩

/-- The weighted sum over any sublist of entries with scores in `[-1, 1]` is
bounded by the corresponding weight sum on both sides. -/
lemma weighted_sum_bounds {α : Type} (l : List (String × IndicatorResult α))
    (h : ∀ p ∈ l, -1 ≤ p.2.score ∧ p.2.score ≤ 1) :
    -((l.map (fun p => weightOf WEIGHTS p.1)).sum)
        ≤ (l.map (fun p => weightOf WEIGHTS p.1 * p.2.score)).sum
    ∧ (l.map (fun p => weightOf WEIGHTS p.1 * p.2.score)).sum
        ≤ (l.map (fun p => weightOf WEIGHTS p.1)).sum := by
  induction l with
  | nil => simp
  | cons p rest ih =>
    obtain ⟨h1, h2⟩ := h p (List.mem_cons_self p rest)
    have hw := weightOf_WEIGHTS_nonneg p.1
    obtain ⟨ih1, ih2⟩ := ih (fun q hq => h q (List.mem_cons_of_mem p hq))
    simp only [List.map_cons, List.sum_cons]
    constructor
    · have : -(weightOf WEIGHTS p.1) ≤ weightOf WEIGHTS p.1 * p.2.score := by
        nlinarith
      linarith
    · have : weightOf WEIGHTS p.1 * p.2.score ≤ weightOf WEIGHTS p.1 := by
        nlinarith
      linarith

/-- C9: if every score in the indicator map lies in `[-1, 1]`, the total
score returned by `calculate_total_score` lies in `[-1, 1]` as well — the
weights of `WEIGHTS` are non-negative and the result is a renormalized
weighted average (or 0 when nothing is included). -/
theorem claim_C9 :
    ∀ (α : Type) (inds : List (String × IndicatorResult α)),
      (∀ p ∈ inds, -1 ≤ p.2.score ∧ p.2.score ≤ 1) →
      -1 ≤ (calculate_total_score inds).1 ∧ (calculate_total_score inds).1 ≤ 1 := by
  intro α inds h
  have hsub : ∀ p ∈ includedW WEIGHTS inds, -1 ≤ p.2.score ∧ p.2.score ≤ 1 :=
    fun p hp => h p (List.mem_of_mem_filter hp)
  obtain ⟨hlow, hhigh⟩ := weighted_sum_bounds (includedW WEIGHTS inds) hsub
  have hden := denom_nonneg inds
  rw [total_score_fst inds]
  rcases eq_or_lt_of_le hden with hz | hpos
  · rw [← hz, div_zero]
    norm_num
  · constructor
    · rw [le_div_iff₀ hpos]
      linarith
    · rw [div_le_one hpos]
      exact hhigh

/-- Witness for C9: a concrete single-indicator map with score 1. -/
theorem claim_C9_witness :
    (∀ p ∈ [("Ahr999",
        ({ name := "Ahr999", value := some 1, score := 1, color := "🟢",
           status := .rangebound, priority := "P1" } : IndicatorResult ℚ))],
        -1 ≤ p.2.score ∧ p.2.score ≤ 1)
    ∧ -1 ≤ (calculate_total_score [("Ahr999",
        ({ name := "Ahr999", value := some 1, score := 1, color := "🟢",
           status := .rangebound, priority := "P1" } : IndicatorResult ℚ))]).1
    ∧ (calculate_total_score [("Ahr999",
        ({ name := "Ahr999", value := some 1, score := 1, color := "🟢",
           status := .rangebound, priority := "P1" } : IndicatorResult ℚ))]).1 ≤ 1 := by
  have hb : ∀ p ∈ [("Ahr999",
      ({ name := "Ahr999", value := some 1, score := 1, color := "🟢",
         status := .rangebound, priority := "P1" } : IndicatorResult ℚ))],
      -1 ≤ p.2.score ∧ p.2.score ≤ 1 := by
    intro p hp
    simp only [List.mem_singleton] at hp
    subst hp
    norm_num
  exact ⟨hb, claim_C9 ℚ _ hb⟩

/-- The accumulation loop reads each entry only through `viewKey`: key,
value-NaN-ness, and score. -/
lemma scoreFold_go_congr {α β : Type} (w : List (String × ℚ)) :
    ∀ (l1 : List (String × IndicatorResult α)) (l2 : List (String × IndicatorResult β))
      (acc : ℚ × ℚ), l1.map viewKey = l2.map viewKey →
      l1.foldl
        (fun acc p =>
          match p.2.value, w.lookup p.1 with
          | some _, some wt => (acc.1 + wt * p.2.score, acc.2 + wt)
          | _, _ => acc)
        acc
      = l2.foldl
        (fun acc p =>
          match p.2.value, w.lookup p.1 with
          | some _, some wt => (acc.1 + wt * p.2.score, acc.2 + wt)
          | _, _ => acc)
        acc
  | [], [], acc, _ => rfl
  | [], q :: l2, acc, h => by simp at h
  | p :: l1, [], acc, h => by simp at h
  | p :: l1, q :: l2, acc, h => by
    simp only [List.map_cons, List.cons.injEq, viewKey, Prod.mk.injEq] at h
    obtain ⟨⟨hkey, hsome, hscore⟩, htail⟩ := h
    simp only [List.foldl_cons]
    have hstep :
        (match p.2.value, w.lookup p.1 with
         | some _, some wt => (acc.1 + wt * p.2.score, acc.2 + wt)
         | _, _ => acc)
        = (match q.2.value, w.lookup q.1 with
           | some _, some wt => (acc.1 + wt * q.2.score, acc.2 + wt)
           | _, _ => acc) := by
      rw [← hkey, ← hscore]
      rcases hv : p.2.value with _ | v <;> rcases hv2 : q.2.value with _ | v2 <;>
        rcases hw : List.lookup p.1 w with _ | wt <;>
        simp [hv, hv2, hw] at hsome ⊢
    rw [hstep]
    exact scoreFold_go_congr w l1 l2 _ htail

/-- C10: `calculate_total_score` depends only on each entry's key, the
NaN-ness of its value, and its score.  Two maps agreeing on those — but
differing arbitrarily in the result's `name`, `color`, `status`, `priority`,
`description`, `method` or `url` fields — produce the identical
`(total_score, recommendation)` pair; in particular weight lookup uses the
map key, never the result's own `name` field. -/
theorem claim_C10 :
    ∀ (α β : Type) (inds1 : List (String × IndicatorResult α))
      (inds2 : List (String × IndicatorResult β)),
      inds1.map viewKey = inds2.map viewKey →
      calculate_total_score inds1 = calculate_total_score inds2 := by
  intro α β inds1 inds2 h
  unfold calculate_total_score calculate_total_score_with scoreFold
  rw [scoreFold_go_congr WEIGHTS inds1 inds2 (0, 0) h]

/-- Witness for C10: the same key `"RSI(14)"` carrying results that differ in
`name` (one has a stale name), `color`, `status`, `priority`, `description`,
`method`, `url` and even the non-NaN value payload — the aggregator output is
identical. -/
theorem claim_C10_witness :
    ([("RSI(14)",
       ({ name := "RSI", value := some (5 : ℚ), score := 0.3, color := "🟡",
          status := .rangebound, priority := "短期" } : IndicatorResult ℚ))].map viewKey
      = [("RSI(14)",
       ({ name := "RSI (expired 2024)", value := some (7 : ℚ), score := 0.3, color := "🔴",
          status := .dataInsufficient, priority := "P0", description := "other",
          method := "other", url := some "https://example.org" } : IndicatorResult ℚ))].map viewKey)
    ∧ calculate_total_score
        [("RSI(14)",
          ({ name := "RSI", value := some (5 : ℚ), score := 0.3, color := "🟡",
             status := .rangebound, priority := "短期" } : IndicatorResult ℚ))]
      = calculate_total_score
        [("RSI(14)",
          ({ name := "RSI (expired 2024)", value := some (7 : ℚ), score := 0.3, color := "🔴",
             status := .dataInsufficient, priority := "P0", description := "other",
             method := "other", url := some "https://example.org" } : IndicatorResult ℚ))] := by
  have hv : ([("RSI(14)",
       ({ name := "RSI", value := some (5 : ℚ), score := 0.3, color := "🟡",
          status := .rangebound, priority := "短期" } : IndicatorResult ℚ))].map viewKey
      = [("RSI(14)",
       ({ name := "RSI (expired 2024)", value := some (7 : ℚ), score := 0.3, color := "🔴",
          status := .dataInsufficient, priority := "P0", description := "other",
          method := "other", url := some "https://example.org" } : IndicatorResult ℚ))].map viewKey) := by
    simp [viewKey]
  exact ⟨hv, claim_C10 ℚ ℚ _ _ hv⟩

section NaNLemmas

variable {α : Type} [LinearOrderedField α]

/-- NaN propagates through the embedded float subtraction. -/
lemma fsub_none_left (a : Option α) : fsub none a = none := by cases a <;> rfl

/-- NaN propagates through the embedded float division. -/
lemma fdiv_none_left (a : Option α) : fdiv none a = none := by cases a <;> rfl

/-- NaN propagates through the embedded float multiplication. -/
lemma fmul_none_left (a : Option α) : fmul none a = none := by cases a <;> rfl

/-- A `>=` comparison against NaN is `False`. -/
lemma fge_none_right (a : Option α) : fge a none = false := by cases a <;> rfl

/-- A `<=` comparison of NaN is `False`. -/
lemma fle_none_left (a : Option α) : fle none a = false := by cases a <;> rfl

end NaNLemmas

/-- C2 counterexample: on the one-element series `[1]` — shorter than both
required windows — `calc_two_year_ma_multiplier` returns `value = 0`, which
is *not* NaN (so the indicator is not excluded from aggregation), and
`calc_pi_cycle` returns score `1`, not `0`: the claim that every window-based
indicator yields `value = NaN`, `score = 0`, status "insufficient data" is
false for both cited indicators. -/
theorem claim_C2_counterexample :
    (calc_two_year_ma_multiplier ([1] : List ℚ)).value = some 0
    ∧ (calc_two_year_ma_multiplier ([1] : List ℚ)).value ≠ none
    ∧ (calc_pi_cycle ([1] : List ℚ)).map (fun r => r.score) = some 1
    ∧ (calc_pi_cycle ([1] : List ℚ)).map (fun r => r.score) ≠ some 0 := by
  refine ⟨rfl, by simp [calc_two_year_ma_multiplier], rfl, by
    norm_num [calc_pi_cycle, rollingMeanLast, fsub, fdiv, fmul, fge, fle]⟩

/-- C2 amended: `calc_two_year_ma_multiplier` on a series shorter than 730
returns `value = 0` (not NaN, hence not excluded from aggregation), score 0
and the 数据不足 status; `calc_pi_cycle` performs no window check at all —
on a nonempty series shorter than 350 its rolling means are NaN, every NaN
comparison is false, and it returns `value = NaN` with score `1` (the "safe"
branch), not 0. -/
theorem claim_C2_amended :
    (∀ (α : Type) [inst : LinearOrderedField α] (xs : List α), xs.length < 730 →
        calc_two_year_ma_multiplier xs
          = { name := "2-Year MA Mult", value := some 0, score := 0, color := "⚪",
              status := .dataInsufficient, priority := "P0" }
      ∧ (calc_two_year_ma_multiplier xs).value = some 0)
    ∧ (∀ (α : Type) [inst : LinearOrderedField α] (xs : List α), xs ≠ [] → xs.length < 350 →
        ∃ r, calc_pi_cycle xs = some r
          ∧ r.value = none ∧ r.score = 1 ∧ r.status = .gapSafe none) := by
  constructor
  · intro α _ xs hlen
    constructor
    · simp [calc_two_year_ma_multiplier, hlen]
    · simp [calc_two_year_ma_multiplier, hlen]
  · intro α _ xs hne hlen
    match xs, hne with
    | x :: rest, _ =>
      have h349 : ¬ (349 ≤ rest.length) := by
        simp only [List.length_cons] at hlen
        omega
      refine ⟨_, rfl, ?_, ?_, ?_⟩ <;>
        simp [calc_pi_cycle, rollingMeanLast, h349, fsub_none_left, fdiv_none_left,
          fmul_none_left, fge_none_right, fle_none_left]

/-- Witness for C2 amended: the concrete series `[1]`. -/
theorem claim_C2_amended_witness :
    (([1] : List ℚ).length < 730
      ∧ calc_two_year_ma_multiplier ([1] : List ℚ)
          = { name := "2-Year MA Mult", value := some 0, score := 0, color := "⚪",
              status := .dataInsufficient, priority := "P0" })
    ∧ (([1] : List ℚ) ≠ [] ∧ ([1] : List ℚ).length < 350
      ∧ ∃ r, calc_pi_cycle ([1] : List ℚ) = some r
          ∧ r.value = none ∧ r.score = 1 ∧ r.status = .gapSafe none) :=
  ⟨⟨by norm_num, (claim_C2_amended.1 ℚ [1] (by norm_num)).1⟩,
   ⟨by simp, by norm_num, claim_C2_amended.2 ℚ [1] (by simp) (by norm_num)⟩⟩

/-- Every element of `lastN n xs` is an element of `xs`. -/
lemma lastN_subset {α : Type} (n : ℕ) (xs : List α) : ∀ p ∈ lastN n xs, p ∈ xs := by
  intro p hp
  exact List.mem_of_mem_drop hp

/-- `lastN n xs` has length `n` once `xs` is long enough. -/
lemma lastN_length {α : Type} (n : ℕ) (xs : List α) (h : n ≤ xs.length) :
    (lastN n xs).length = n := by
  simp [lastN]
  omega

/-- The rolling mean over a full window of strictly positive prices is
strictly positive. -/
lemma meanLast_pos {α : Type} [LinearOrderedField α] (w : ℕ) (hw : 0 < w)
    (xs : List α) (hlen : w ≤ xs.length)
    (hpos : ∀ p ∈ xs, 0 < p) : 0 < meanLast w xs := by
  have hne : lastN w xs ≠ [] := by
    intro h
    have := lastN_length w xs hlen
    rw [h] at this
    simp at this
    omega
  have hsum : 0 < (lastN w xs).sum :=
    List.sum_pos _ (fun p hp => hpos p (lastN_subset w xs p hp)) hne
  exact div_pos hsum (by exact_mod_cast hw)

/-- The length of the crossing example series. -/
lemma piSeries_length :
    (List.replicate 239 (64 : ℚ) ++ List.replicate 111 239).length = 350 := by
  rw [List.length_append, List.length_replicate, List.length_replicate]

/-- The 350-window tail of the crossing example series. -/
lemma piSeries_lastN350 :
    lastN 350 (List.replicate 239 (64 : ℚ) ++ List.replicate 111 239)
      = List.replicate 239 (64 : ℚ) ++ List.replicate 111 239 := by
  unfold lastN
  rw [piSeries_length, Nat.sub_self, List.drop_zero]

/-- The 111-window tail of the crossing example series. -/
lemma piSeries_lastN111 :
    lastN 111 (List.replicate 239 (64 : ℚ) ++ List.replicate 111 239)
      = List.replicate 111 (239 : ℚ) := by
  unfold lastN
  rw [piSeries_length]
  have hsub : (350 : ℕ) - 111 = 239 := by norm_num
  rw [hsub, List.drop_left' (by rw [List.length_replicate])]

/-- On the example series the short mean equals exactly twice the long mean. -/
lemma piSeries_means_eq :
    meanLast 111 (List.replicate 239 (64 : ℚ) ++ List.replicate 111 239)
      = meanLast 350 (List.replicate 239 (64 : ℚ) ++ List.replicate 111 239) * 2 := by
  unfold meanLast
  rw [piSeries_lastN111, piSeries_lastN350, List.sum_append, List.sum_replicate,
    List.sum_replicate]
  norm_num [nsmul_eq_mul]

/-- Full evaluation of `calc_pi_cycle` on a series long enough for both
windows and with a nonzero doubled long mean. -/
lemma calc_pi_cycle_spec {α : Type} [LinearOrderedField α] (x : α) (rest : List α)
    (h111 : 111 ≤ (x :: rest).length) (h350 : 350 ≤ (x :: rest).length)
    (hden : meanLast 350 (x :: rest) * 2 ≠ 0) :
    calc_pi_cycle (x :: rest) = some
      { name := "Pi Cycle Top",
        value := some ((meanLast 350 (x :: rest) * 2 - meanLast 111 (x :: rest))
            / (meanLast 350 (x :: rest) * 2) * 100),
        score := if meanLast 350 (x :: rest) * 2 ≤ meanLast 111 (x :: rest) then (-1 : ℚ)
          else if (meanLast 350 (x :: rest) * 2 - meanLast 111 (x :: rest))
              / (meanLast 350 (x :: rest) * 2) * 100 ≤ 20 then 0 else 1,
        color := if meanLast 350 (x :: rest) * 2 ≤ meanLast 111 (x :: rest) then "🔴"
          else if (meanLast 350 (x :: rest) * 2 - meanLast 111 (x :: rest))
              / (meanLast 350 (x :: rest) * 2) * 100 ≤ 20 then "🟡" else "🟢",
        status := if meanLast 350 (x :: rest) * 2 ≤ meanLast 111 (x :: rest) then .crossedTop
          else if (meanLast 350 (x :: rest) * 2 - meanLast 111 (x :: rest))
              / (meanLast 350 (x :: rest) * 2) * 100 ≤ 20 then
            .gapNearCross (some ((meanLast 350 (x :: rest) * 2 - meanLast 111 (x :: rest))
              / (meanLast 350 (x :: rest) * 2) * 100))
          else .gapSafe (some ((meanLast 350 (x :: rest) * 2 - meanLast 111 (x :: rest))
              / (meanLast 350 (x :: rest) * 2) * 100)),
        priority := "P0",
        url := some "https://www.lookintobitcoin.com/charts/pi-cycle-top-indicator/",
        description := "Pi Cycle Top 指标用于识别比特币市场周期的顶部，历史上准确率极高。",
        method := "由两条移动平均线组成：111日均线 (111DMA) 和 350日均线的两倍 (350DMA x 2)。当 111DMA 上穿 350DMA x 2 时，预示市场顶部。" } := by
  have hma111 : rollingMeanLast 111 (x :: rest) = some (meanLast 111 (x :: rest)) := by
    unfold rollingMeanLast
    rw [if_pos h111]
  have hma350 : rollingMeanLast 350 (x :: rest) = some (meanLast 350 (x :: rest)) := by
    unfold rollingMeanLast
    rw [if_pos h350]
  simp only [calc_pi_cycle, hma111, hma350, Option.map_some', fsub, fdiv, fmul, fge, fle,
    decide_eq_true_eq, if_neg hden]
  split_ifs <;> rfl

/-- C4: on any series of positive prices long enough for both windows,
`calc_pi_cycle` computes `gap_pct = (long*2 - short)/(long*2)*100` and scores
-1 when `short >= long*2` (inclusively), else 0 when `gap_pct <= 20`, else 1;
and on a concrete series where the 111-mean equals exactly twice the
350-mean, the score is -1, not 0. -/
theorem claim_C4 :
    (∀ (α : Type) [inst : LinearOrderedField α] (xs : List α), 350 ≤ xs.length →
      (∀ p ∈ xs, 0 < p) →
      ∃ r, calc_pi_cycle xs = some r
        ∧ r.value = some ((meanLast 350 xs * 2 - meanLast 111 xs)
            / (meanLast 350 xs * 2) * 100)
        ∧ r.score = (if meanLast 350 xs * 2 ≤ meanLast 111 xs then (-1 : ℚ)
            else if (meanLast 350 xs * 2 - meanLast 111 xs)
                / (meanLast 350 xs * 2) * 100 ≤ 20 then 0
            else 1))
    ∧ (meanLast 111 (List.replicate 239 (64 : ℚ) ++ List.replicate 111 239)
        = meanLast 350 (List.replicate 239 (64 : ℚ) ++ List.replicate 111 239) * 2
      ∧ ∃ r, calc_pi_cycle (List.replicate 239 (64 : ℚ) ++ List.replicate 111 239) = some r
          ∧ r.score = -1) := by
  have main : ∀ (α : Type) [inst : LinearOrderedField α] (xs : List α), 350 ≤ xs.length →
      (∀ p ∈ xs, 0 < p) →
      ∃ r, calc_pi_cycle xs = some r
        ∧ r.value = some ((meanLast 350 xs * 2 - meanLast 111 xs)
            / (meanLast 350 xs * 2) * 100)
        ∧ r.score = (if meanLast 350 xs * 2 ≤ meanLast 111 xs then (-1 : ℚ)
            else if (meanLast 350 xs * 2 - meanLast 111 xs)
                / (meanLast 350 xs * 2) * 100 ≤ 20 then 0
            else 1) := by
    intro α _ xs hlen hpos
    cases xs with
    | nil => simp at hlen
    | cons x rest =>
      have h350 : 350 ≤ (x :: rest).length := hlen
      have h111 : 111 ≤ (x :: rest).length := by omega
      have hm350 : 0 < meanLast 350 (x :: rest) :=
        meanLast_pos 350 (by norm_num) _ h350 hpos
      have hden : meanLast 350 (x :: rest) * 2 ≠ 0 := by positivity
      exact ⟨_, calc_pi_cycle_spec x rest h111 h350 hden, rfl, rfl⟩
  refine ⟨main, piSeries_means_eq, ?_⟩
  · have hlen : 350 ≤ (List.replicate 239 (64 : ℚ) ++ List.replicate 111 239).length := by
      rw [piSeries_length]
    have hpos : ∀ p ∈ List.replicate 239 (64 : ℚ) ++ List.replicate 111 239, 0 < p := by
      intro p hp
      rcases List.mem_append.mp hp with h | h <;>
        · rw [List.eq_of_mem_replicate h]
          norm_num
    obtain ⟨r, hr, _, hscore⟩ := main ℚ _ hlen hpos
    refine ⟨r, hr, ?_⟩
    rw [hscore, if_pos (le_of_eq piSeries_means_eq.symm)]

/-- Witness for C4: the constant positive series of length 350. -/
theorem claim_C4_witness :
    350 ≤ (List.replicate 350 (1 : ℚ)).length
    ∧ (∀ p ∈ List.replicate 350 (1 : ℚ), 0 < p)
    ∧ ∃ r, calc_pi_cycle (List.replicate 350 (1 : ℚ)) = some r
        ∧ r.value = some ((meanLast 350 (List.replicate 350 (1 : ℚ)) * 2
              - meanLast 111 (List.replicate 350 (1 : ℚ)))
            / (meanLast 350 (List.replicate 350 (1 : ℚ)) * 2) * 100)
        ∧ r.score = (if meanLast 350 (List.replicate 350 (1 : ℚ)) * 2
              ≤ meanLast 111 (List.replicate 350 (1 : ℚ)) then (-1 : ℚ)
            else if (meanLast 350 (List.replicate 350 (1 : ℚ)) * 2
                  - meanLast 111 (List.replicate 350 (1 : ℚ)))
                / (meanLast 350 (List.replicate 350 (1 : ℚ)) * 2) * 100 ≤ 20 then 0
            else 1) := by
  have h1 : 350 ≤ (List.replicate 350 (1 : ℚ)).length := by
    rw [List.length_replicate]
  have h2 : ∀ p ∈ List.replicate 350 (1 : ℚ), 0 < p := by
    intro p hp
    rw [List.eq_of_mem_replicate hp]
    norm_num
  exact ⟨h1, h2, claim_C4.1 ℚ _ h1 h2⟩

/-- Full evaluation of `calc_mayer_multiple` on a series long enough for its
window, with the source's exact band order: strict `<` at 0.6 and 1.1, strict
`>` at 2.4 and 1.8. -/
lemma calc_mayer_multiple_spec {α : Type} [LinearOrderedField α] (xs : List α)
    (hlen : 200 ≤ xs.length) :
    calc_mayer_multiple xs =
    { name := "Mayer Multiple",
      value := some (xs.getLastD 0 / meanLast 200 xs),
      score := if xs.getLastD 0 / meanLast 200 xs < 0.6 then (1 : ℚ)
        else if xs.getLastD 0 / meanLast 200 xs < 1.1 then 0.5
        else if 2.4 < xs.getLastD 0 / meanLast 200 xs then -1
        else if 1.8 < xs.getLastD 0 / meanLast 200 xs then -0.5
        else 0,
      color := if xs.getLastD 0 / meanLast 200 xs < 0.6 then "🟢"
        else if xs.getLastD 0 / meanLast 200 xs < 1.1 then "🟢"
        else if 2.4 < xs.getLastD 0 / meanLast 200 xs then "🔴"
        else if 1.8 < xs.getLastD 0 / meanLast 200 xs then "🟡"
        else "🟡",
      status := if xs.getLastD 0 / meanLast 200 xs < 0.6 then
          .mayerExtremeLow (xs.getLastD 0 / meanLast 200 xs)
        else if xs.getLastD 0 / meanLast 200 xs < 1.1 then
          .mayerLow (xs.getLastD 0 / meanLast 200 xs)
        else if 2.4 < xs.getLastD 0 / meanLast 200 xs then
          .mayerExtremeHigh (xs.getLastD 0 / meanLast 200 xs)
        else if 1.8 < xs.getLastD 0 / meanLast 200 xs then
          .mayerHigh (xs.getLastD 0 / meanLast 200 xs)
        else .mayerFair (xs.getLastD 0 / meanLast 200 xs),
      priority := "P0",
      url := some "https://charts.bitbo.io/mayer-multiple/",
      description := "梅耶倍数通过比特币价格与200日移动平均线的比值，评估市场是否处于超买或超卖状态。",
      method := "梅耶倍数 = 价格 / 200日均线。通常低于0.6为极度低估，高于2.4为极度高估。" } := by
  simp only [calc_mayer_multiple, if_neg (by omega : ¬ xs.length < 200)]
  split_ifs <;> rfl

/-- The Mayer ratio of the boundary series for the value exactly 1.8. -/
lemma mayerSeries18_mm :
    (List.replicate 199 (991 : ℚ) ++ [1791]).getLastD 0
      / meanLast 200 (List.replicate 199 (991 : ℚ) ++ [1791]) = 1.8 := by
  have hlen : (List.replicate 199 (991 : ℚ) ++ [1791]).length = 200 := by
    rw [List.length_append, List.length_replicate, List.length_singleton]
  unfold meanLast lastN
  rw [hlen, Nat.sub_self, List.drop_zero, List.sum_append, List.sum_replicate,
    List.sum_singleton, List.getLastD_concat]
  norm_num [nsmul_eq_mul]

/-- The Mayer ratio of the boundary series for the value exactly 2.4. -/
lemma mayerSeries24_mm :
    (List.replicate 199 (247 : ℚ) ++ [597]).getLastD 0
      / meanLast 200 (List.replicate 199 (247 : ℚ) ++ [597]) = 2.4 := by
  have hlen : (List.replicate 199 (247 : ℚ) ++ [597]).length = 200 := by
    rw [List.length_append, List.length_replicate, List.length_singleton]
  unfold meanLast lastN
  rw [hlen, Nat.sub_self, List.drop_zero, List.sum_append, List.sum_replicate,
    List.sum_singleton, List.getLastD_concat]
  norm_num [nsmul_eq_mul]

/-- At a Mayer ratio of exactly 1.8 the code scores 0. -/
lemma mayer18_eval :
    (calc_mayer_multiple (List.replicate 199 (991 : ℚ) ++ [1791])).value = some 1.8
    ∧ (calc_mayer_multiple (List.replicate 199 (991 : ℚ) ++ [1791])).score = 0 := by
  have hlen : 200 ≤ (List.replicate 199 (991 : ℚ) ++ [1791]).length := by
    rw [List.length_append, List.length_replicate, List.length_singleton]
  have h := calc_mayer_multiple_spec _ hlen
  rw [mayerSeries18_mm] at h
  rw [h]
  norm_num

/-- At a Mayer ratio of exactly 2.4 the code scores -0.5. -/
lemma mayer24_eval :
    (calc_mayer_multiple (List.replicate 199 (247 : ℚ) ++ [597])).value = some 2.4
    ∧ (calc_mayer_multiple (List.replicate 199 (247 : ℚ) ++ [597])).score = -0.5 := by
  have hlen : 200 ≤ (List.replicate 199 (247 : ℚ) ++ [597]).length := by
    rw [List.length_append, List.length_replicate, List.length_singleton]
  have h := calc_mayer_multiple_spec _ hlen
  rw [mayerSeries24_mm] at h
  rw [h]
  norm_num

/-- C8 counterexample: on a 200-day series whose Mayer ratio is exactly 1.8
the code scores 0 (not the claimed -0.5), and on one whose ratio is exactly
2.4 it scores -0.5 (not the claimed -1): the code's upper bands use strict
`>`, so both boundary memberships in the claim are wrong. -/
theorem claim_C8_counterexample :
    (calc_mayer_multiple (List.replicate 199 (991 : ℚ) ++ [1791])).value = some 1.8
    ∧ (calc_mayer_multiple (List.replicate 199 (991 : ℚ) ++ [1791])).score = 0
    ∧ ((calc_mayer_multiple (List.replicate 199 (991 : ℚ) ++ [1791])).score = -0.5 → False)
    ∧ (calc_mayer_multiple (List.replicate 199 (247 : ℚ) ++ [597])).value = some 2.4
    ∧ (calc_mayer_multiple (List.replicate 199 (247 : ℚ) ++ [597])).score = -0.5
    ∧ ((calc_mayer_multiple (List.replicate 199 (247 : ℚ) ++ [597])).score = -1 → False) := by
  refine ⟨mayer18_eval.1, mayer18_eval.2, ?_, mayer24_eval.1, mayer24_eval.2, ?_⟩
  · rw [mayer18_eval.2]
    norm_num
  · rw [mayer24_eval.2]
    norm_num

/-- C8 amended: the Mayer-multiple score is piecewise in the code's order
with strict upper comparisons — `<0.6 → 1`, `[0.6,1.1) → 0.5`,
`[1.1,1.8] → 0`, `(1.8,2.4] → -0.5`, `>2.4 → -1` — so a ratio of exactly 1.8
gives 0 and a ratio of exactly 2.4 gives -0.5. -/
theorem claim_C8_amended :
    (∀ (α : Type) [inst : LinearOrderedField α] (xs : List α), 200 ≤ xs.length →
      (calc_mayer_multiple xs).value = some (xs.getLastD 0 / meanLast 200 xs)
      ∧ (calc_mayer_multiple xs).score =
          (if xs.getLastD 0 / meanLast 200 xs < 0.6 then (1 : ℚ)
           else if xs.getLastD 0 / meanLast 200 xs < 1.1 then 0.5
           else if 2.4 < xs.getLastD 0 / meanLast 200 xs then -1
           else if 1.8 < xs.getLastD 0 / meanLast 200 xs then -0.5
           else 0))
    ∧ (calc_mayer_multiple (List.replicate 199 (991 : ℚ) ++ [1791])).score = 0
    ∧ (calc_mayer_multiple (List.replicate 199 (247 : ℚ) ++ [597])).score = -0.5 := by
  refine ⟨fun α _ xs hlen => ?_, mayer18_eval.2, mayer24_eval.2⟩
  rw [calc_mayer_multiple_spec xs hlen]
  exact ⟨rfl, rfl⟩

/-- Witness for C8 amended: a concrete constant series of length 200. -/
theorem claim_C8_amended_witness :
    200 ≤ (List.replicate 200 (1 : ℚ)).length
    ∧ ((calc_mayer_multiple (List.replicate 200 (1 : ℚ))).value
        = some ((List.replicate 200 (1 : ℚ)).getLastD 0
            / meanLast 200 (List.replicate 200 (1 : ℚ)))
      ∧ (calc_mayer_multiple (List.replicate 200 (1 : ℚ))).score =
          (if (List.replicate 200 (1 : ℚ)).getLastD 0
                / meanLast 200 (List.replicate 200 (1 : ℚ)) < 0.6 then (1 : ℚ)
           else if (List.replicate 200 (1 : ℚ)).getLastD 0
                / meanLast 200 (List.replicate 200 (1 : ℚ)) < 1.1 then 0.5
           else if 2.4 < (List.replicate 200 (1 : ℚ)).getLastD 0
                / meanLast 200 (List.replicate 200 (1 : ℚ)) then -1
           else if 1.8 < (List.replicate 200 (1 : ℚ)).getLastD 0
                / meanLast 200 (List.replicate 200 (1 : ℚ)) then -0.5
           else 0)) := by
  have h : 200 ≤ (List.replicate 200 (1 : ℚ)).length := by
    rw [List.length_replicate]
  exact ⟨h, claim_C8_amended.1 ℚ _ h⟩

/-- C6 counterexample: when every funding-rate source fails,
`calc_funding_rate` returns `value = 0.0`, not NaN — the source comments the
choice explicitly ("Return 0.0 instead of NaN") — so the all-failed funding
indicator is not excluded from aggregation as the claim requires. -/
theorem claim_C6_counterexample :
    (calc_funding_rate (α := ℚ) none).value = some 0
    ∧ ((calc_funding_rate (α := ℚ) none).value = none → False) := by
  refine ⟨rfl, fun h => ?_⟩
  simp [calc_funding_rate] at h

/-- C6 amended: with every source failed, the long/short-ratio and
sentiment-index indicators return structurally valid results with
`value = NaN`, `score = 0` and a failure status; the funding-rate indicator
also returns a structurally valid result with `score = 0` and a failure
status but with `value = 0.0` instead of NaN (deliberately, so its card still
renders), hence it stays in the aggregation with weight and zero score.  None
of the three can raise: each failure branch returns a result. -/
theorem claim_C6_amended :
    calc_funding_rate (α := ℚ) none =
    { name := "资金费率", value := some 0, score := 0, color := "⚪",
      status := .fundingFailed, priority := "P1",
      description := "资金费率...",
      method := "因网络或SSL问题无法连接 Binance/Bybit API。请检查网络连接。" }
    ∧ calc_long_short_ratio (α := ℚ) none =
    { name := "多空比", value := none, score := 0, color := "⚪",
      status := .apiUnavailable, priority := "P1" }
    ∧ calc_fear_greed_index (α := ℚ) none =
    { name := "恐惧贪婪指数", value := none, score := 0, color := "⚪",
      status := .apiUnavailable, priority := "P1" } :=
  ⟨rfl, rfl, rfl⟩

/-- C7 amended: whenever the overbought and oversold bucket counts tie in the
RSI voter — or the bullish and bearish counts tie in the MACD voter — the
result is the plain neutral/balance status (多周期中性 resp. 多空平衡) with
score exactly 0, regardless of the cumulative local strengths; no
strength-signed divergence verdict exists for the tie case. -/
theorem claim_C7_amended :
    (∀ tfs : List RsiTF, tfs ≠ [] →
      (rsiTally tfs).overbought = (rsiTally tfs).oversold →
      rsiVote tfs = (0, "🟡", .multiNeutral (rsiTally tfs).neutral tfs.length))
    ∧ (∀ tfs : List MacdTF, tfs ≠ [] →
      (macdTally tfs).bullish = (macdTally tfs).bearish →
      macdVote tfs = (0, "🟡", .balance (macdTally tfs).bullish (macdTally tfs).bearish)) := by
  constructor
  · intro tfs hne heq
    have hlen : tfs.length ≠ 0 := by
      simpa [List.length_eq_zero] using hne
    have h1 : ¬ ((rsiTally tfs).oversold < (rsiTally tfs).overbought
        ∧ (rsiTally tfs).neutral < (rsiTally tfs).overbought) := by
      rintro ⟨h, _⟩
      omega
    have h2 : ¬ ((rsiTally tfs).overbought < (rsiTally tfs).oversold
        ∧ (rsiTally tfs).neutral < (rsiTally tfs).oversold) := by
      rintro ⟨h, _⟩
      omega
    simp only [rsiVote, if_neg hlen, if_neg h1, if_neg h2]
  · intro tfs hne heq
    have hlen : tfs.length ≠ 0 := by
      simpa [List.length_eq_zero] using hne
    have h1 : ¬ ((macdTally tfs).bearish < (macdTally tfs).bullish) := by
      omega
    have h2 : ¬ ((macdTally tfs).bullish < (macdTally tfs).bearish) := by
      omega
    simp only [macdVote, if_neg hlen, if_neg h1, if_neg h2]

/-- C7 counterexample: with 2 overbought / 2 oversold / 0 neutral timeframes
and cumulative strengths -2 (overbought side) versus +1 (oversold side), the
RSI voter returns score exactly 0 with the plain 多周期中性 status — not a
divergence verdict signed by the stronger side; likewise the MACD voter on a
2/2 tie with net strength +1 returns score 0 with the 多空平衡 status. -/
theorem claim_C7_counterexample :
    (rsiTally [⟨.overbought, -1⟩, ⟨.overbought, -1⟩, ⟨.oversold, 0.5⟩,
        ⟨.oversold, 0.5⟩]).overbought = 2
    ∧ (rsiTally [⟨.overbought, -1⟩, ⟨.overbought, -1⟩, ⟨.oversold, 0.5⟩,
        ⟨.oversold, 0.5⟩]).oversold = 2
    ∧ (rsiTally [⟨.overbought, -1⟩, ⟨.overbought, -1⟩, ⟨.oversold, 0.5⟩,
        ⟨.oversold, 0.5⟩]).neutral = 0
    ∧ (rsiTally [⟨.overbought, -1⟩, ⟨.overbought, -1⟩, ⟨.oversold, 0.5⟩,
        ⟨.oversold, 0.5⟩]).totalScore = -1
    ∧ rsiVote [⟨.overbought, -1⟩, ⟨.overbought, -1⟩, ⟨.oversold, 0.5⟩,
        ⟨.oversold, 0.5⟩] = (0, "🟡", .multiNeutral 0 4)
    ∧ (macdTally [⟨.bullish, 2⟩, ⟨.bullish, 0.5⟩, ⟨.bearish, 1⟩,
        ⟨.bearish, 0.5⟩]).bullish = 2
    ∧ (macdTally [⟨.bullish, 2⟩, ⟨.bullish, 0.5⟩, ⟨.bearish, 1⟩,
        ⟨.bearish, 0.5⟩]).bearish = 2
    ∧ (macdTally [⟨.bullish, 2⟩, ⟨.bullish, 0.5⟩, ⟨.bearish, 1⟩,
        ⟨.bearish, 0.5⟩]).totalStrength = 1
    ∧ macdVote [⟨.bullish, 2⟩, ⟨.bullish, 0.5⟩, ⟨.bearish, 1⟩,
        ⟨.bearish, 0.5⟩] = (0, "🟡", .balance 2 2) := by
  refine ⟨rfl, rfl, rfl, ?_, ?_, rfl, rfl, ?_, ?_⟩
  · norm_num [rsiTally]
  · norm_num [rsiVote, rsiTally]
  · norm_num [macdTally]
  · norm_num [macdVote, macdTally]

/-- Witness for C7 amended: the concrete 2/2 tie lists. -/
theorem claim_C7_amended_witness :
    (([⟨.overbought, -1⟩, ⟨.overbought, -1⟩, ⟨.oversold, 0.5⟩,
        ⟨.oversold, 0.5⟩] : List RsiTF) ≠ []
      ∧ (rsiTally [⟨.overbought, -1⟩, ⟨.overbought, -1⟩, ⟨.oversold, 0.5⟩,
          ⟨.oversold, 0.5⟩]).overbought
        = (rsiTally [⟨.overbought, -1⟩, ⟨.overbought, -1⟩, ⟨.oversold, 0.5⟩,
          ⟨.oversold, 0.5⟩]).oversold
      ∧ rsiVote [⟨.overbought, -1⟩, ⟨.overbought, -1⟩, ⟨.oversold, 0.5⟩,
          ⟨.oversold, 0.5⟩]
        = (0, "🟡", .multiNeutral
            (rsiTally [⟨.overbought, -1⟩, ⟨.overbought, -1⟩, ⟨.oversold, 0.5⟩,
              ⟨.oversold, 0.5⟩]).neutral
            ([⟨.overbought, -1⟩, ⟨.overbought, -1⟩, ⟨.oversold, 0.5⟩,
              ⟨.oversold, 0.5⟩] : List RsiTF).length))
    ∧ (([⟨.bullish, 2⟩, ⟨.bullish, 0.5⟩, ⟨.bearish, 1⟩,
        ⟨.bearish, 0.5⟩] : List MacdTF) ≠ []
      ∧ (macdTally [⟨.bullish, 2⟩, ⟨.bullish, 0.5⟩, ⟨.bearish, 1⟩,
          ⟨.bearish, 0.5⟩]).bullish
        = (macdTally [⟨.bullish, 2⟩, ⟨.bullish, 0.5⟩, ⟨.bearish, 1⟩,
          ⟨.bearish, 0.5⟩]).bearish
      ∧ macdVote [⟨.bullish, 2⟩, ⟨.bullish, 0.5⟩, ⟨.bearish, 1⟩, ⟨.bearish, 0.5⟩]
        = (0, "🟡", .balance
            (macdTally [⟨.bullish, 2⟩, ⟨.bullish, 0.5⟩, ⟨.bearish, 1⟩,
              ⟨.bearish, 0.5⟩]).bullish
            (macdTally [⟨.bullish, 2⟩, ⟨.bullish, 0.5⟩, ⟨.bearish, 1⟩,
              ⟨.bearish, 0.5⟩]).bearish)) := by
  have hr1 : ([⟨.overbought, -1⟩, ⟨.overbought, -1⟩, ⟨.oversold, 0.5⟩,
      ⟨.oversold, 0.5⟩] : List RsiTF) ≠ [] := by simp
  have hr2 : (rsiTally [⟨.overbought, -1⟩, ⟨.overbought, -1⟩, ⟨.oversold, 0.5⟩,
      ⟨.oversold, 0.5⟩]).overbought
      = (rsiTally [⟨.overbought, -1⟩, ⟨.overbought, -1⟩, ⟨.oversold, 0.5⟩,
      ⟨.oversold, 0.5⟩]).oversold := rfl
  have hm1 : ([⟨.bullish, 2⟩, ⟨.bullish, 0.5⟩, ⟨.bearish, 1⟩,
      ⟨.bearish, 0.5⟩] : List MacdTF) ≠ [] := by simp
  have hm2 : (macdTally [⟨.bullish, 2⟩, ⟨.bullish, 0.5⟩, ⟨.bearish, 1⟩,
      ⟨.bearish, 0.5⟩]).bullish
      = (macdTally [⟨.bullish, 2⟩, ⟨.bullish, 0.5⟩, ⟨.bearish, 1⟩,
      ⟨.bearish, 0.5⟩]).bearish := rfl
  exact ⟨⟨hr1, hr2, claim_C7_amended.1 _ hr1 hr2⟩, ⟨hm1, hm2, claim_C7_amended.2 _ hm1 hm2⟩⟩

/-- The fair value is positive for a positive day count. -/
lemma ahrFairValue_pos (d : ℤ) (hd : 0 < d) : 0 < ahrFairValue d := by
  unfold ahrFairValue
  rw [if_pos hd]
  exact Real.rpow_pos_of_pos (by norm_num) _

/-- Full evaluation of `calc_ahr999` on a nonempty series with a positive day
count: both positivity guards hold (the geometric mean is an exponential and
the fair value a power of 10), so the returned value is `ahrValue` and the
bands are `< 0.45 → 1`, `[0.45, 1.2) → 0`, `>= 1.2 → -1`. -/
lemma calc_ahr999_spec (x0 : ℝ) (rest : List ℝ) (d : ℤ) (hd : 0 < d) :
    calc_ahr999 (x0 :: rest) d = some
    { name := "Ahr999",
      value := some (ahrValue (x0 :: rest) d),
      score := if ahrValue (x0 :: rest) d < 0.45 then 1
        else if ahrValue (x0 :: rest) d < 1.2 then 0 else -1,
      color := if ahrValue (x0 :: rest) d < 0.45 then "🟢"
        else if ahrValue (x0 :: rest) d < 1.2 then "🟡" else "🔴",
      status := if ahrValue (x0 :: rest) d < 0.45 then .chaoDiQu (ahrValue (x0 :: rest) d)
        else if ahrValue (x0 :: rest) d < 1.2 then .dingTouQu (ahrValue (x0 :: rest) d)
        else .zhiYingQu (ahrValue (x0 :: rest) d),
      priority := "P1",
      url := some "https://www.coinglass.com/pro/i/ahr999",
      description := "Ahr999 指数用于辅助比特币定投和抄底，评估价格是否处于低估区间。",
      method := "Ahr999 = (价格/200日定投成本) * (价格/指数增长估值)。< 0.45 抄底，0.45-1.2 定投，> 1.25 起飞。" } := by
  have hguard : 0 < geoMean (lastN 200 (x0 :: rest)) ∧ 0 < ahrFairValue d :=
    ⟨Real.exp_pos _, ahrFairValue_pos d hd⟩
  simp only [calc_ahr999, ahrValue, if_pos hguard]
  split_ifs <;> rfl

/-- `Real.log` of a product of nonzero factors is the sum of the logs. -/
lemma log_list_prod (xs : List ℝ) (h : ∀ x ∈ xs, x ≠ 0) :
    Real.log xs.prod = (xs.map Real.log).sum := by
  induction xs with
  | nil => simp
  | cons x rest ih =>
    have hx : x ≠ 0 := h x (List.mem_cons_self x rest)
    have hrest : rest.prod ≠ 0 := by
      apply List.prod_ne_zero
      intro h0
      exact h 0 (List.mem_cons_of_mem x h0) rfl
    rw [List.prod_cons, Real.log_mul hx hrest, List.map_cons, List.sum_cons,
      ih (fun y hy => h y (List.mem_cons_of_mem x hy))]

/-- `np.exp(np.mean(np.log(xs)))` really is the geometric mean: the
`n`-th root of the product, for a nonempty list of positive reals. -/
lemma geoMean_eq_rpow (xs : List ℝ) (hne : xs ≠ []) (hpos : ∀ x ∈ xs, 0 < x) :
    geoMean xs = xs.prod ^ (((xs.length : ℝ))⁻¹) := by
  have hprod : 0 < xs.prod := List.prod_pos hpos
  have hlog : Real.log xs.prod = (xs.map Real.log).sum :=
    log_list_prod xs (fun x hx => ne_of_gt (hpos x hx))
  rw [Real.rpow_def_of_pos hprod, hlog]
  unfold geoMean
  rw [div_eq_mul_inv]

/-- A full-window or truncated tail of a nonempty list is nonempty. -/
lemma lastN_ne_nil {α : Type} (n : ℕ) (hn : 0 < n) (xs : List α) (hxs : xs ≠ []) :
    lastN n xs ≠ [] := by
  intro h
  have hlen : (lastN n xs).length = 0 := by rw [h]; rfl
  unfold lastN at hlen
  rw [List.length_drop] at hlen
  have : 0 < xs.length := List.length_pos.mpr hxs
  omega

/-- C3 amended: the value is `(price/geometric_cost) × (price/fair_value)`
with `fair_value = 10^(B·log10(days) + A)` and the geometric cost the true
geometric mean (`n`-th root of the product) of the trailing up-to-200 prices;
the bands are as claimed.  But when fewer than 200 prices exist the code does
*not* fall back to the arithmetic mean and does *not* flag the result: the
same geometric-mean path runs on however many prices are available and the
status carries only the band label (the arithmetic-mean fallback lives in an
`except` handler that float arithmetic never triggers, and no status is ever
marked approximate). -/
theorem claim_C3_amended :
    ∀ (prices : List ℝ) (d : ℤ), prices ≠ [] → (∀ p ∈ prices, 0 < p) → 0 < d →
      ∃ r, calc_ahr999 prices d = some r
        ∧ r.value = some (ahrValue prices d)
        ∧ ahrValue prices d = (prices.getLastD 0 / geoMean (lastN 200 prices))
            * (prices.getLastD 0 / (10:ℝ) ^ (AHR999_B * Real.logb 10 (d:ℝ) + AHR999_A))
        ∧ geoMean (lastN 200 prices)
            = (lastN 200 prices).prod ^ ((((lastN 200 prices).length : ℝ))⁻¹)
        ∧ r.score = (if ahrValue prices d < 0.45 then 1
            else if ahrValue prices d < 1.2 then 0 else -1)
        ∧ r.status = (if ahrValue prices d < 0.45 then .chaoDiQu (ahrValue prices d)
            else if ahrValue prices d < 1.2 then .dingTouQu (ahrValue prices d)
            else .zhiYingQu (ahrValue prices d)) := by
  intro prices d hne hpos hd
  cases prices with
  | nil => exact absurd rfl hne
  | cons x0 rest =>
    refine ⟨_, calc_ahr999_spec x0 rest d hd, rfl, ?_, ?_, rfl, rfl⟩
    · unfold ahrValue ahrFairValue
      rw [if_pos hd]
    · exact geoMean_eq_rpow _ (lastN_ne_nil 200 (by norm_num) _ hne)
        (fun x hx => hpos x (lastN_subset 200 _ x hx))

/-- Witness for C3 amended: the two-price series `[1, 100]` at day 1000. -/
theorem claim_C3_amended_witness :
    (([(1:ℝ), 100] : List ℝ) ≠ [] ∧ (∀ p ∈ [(1:ℝ), 100], 0 < p) ∧ (0:ℤ) < 1000)
    ∧ (∃ r, calc_ahr999 [(1:ℝ), 100] 1000 = some r
        ∧ r.value = some (ahrValue [(1:ℝ), 100] 1000)
        ∧ ahrValue [(1:ℝ), 100] 1000
            = ([(1:ℝ), 100].getLastD 0 / geoMean (lastN 200 [(1:ℝ), 100]))
            * ([(1:ℝ), 100].getLastD 0
                / (10:ℝ) ^ (AHR999_B * Real.logb 10 ((1000:ℤ):ℝ) + AHR999_A))
        ∧ geoMean (lastN 200 [(1:ℝ), 100])
            = (lastN 200 [(1:ℝ), 100]).prod ^ ((((lastN 200 [(1:ℝ), 100]).length : ℝ))⁻¹)
        ∧ r.score = (if ahrValue [(1:ℝ), 100] 1000 < 0.45 then 1
            else if ahrValue [(1:ℝ), 100] 1000 < 1.2 then 0 else -1)
        ∧ r.status = (if ahrValue [(1:ℝ), 100] 1000 < 0.45 then
              .chaoDiQu (ahrValue [(1:ℝ), 100] 1000)
            else if ahrValue [(1:ℝ), 100] 1000 < 1.2 then
              .dingTouQu (ahrValue [(1:ℝ), 100] 1000)
            else .zhiYingQu (ahrValue [(1:ℝ), 100] 1000))) := by
  have h1 : ([(1:ℝ), 100] : List ℝ) ≠ [] := by simp
  have h2 : ∀ p ∈ [(1:ℝ), 100], 0 < p := by
    intro p hp
    rcases List.mem_cons.mp hp with h | h
    · rw [h]; norm_num
    · rw [List.mem_singleton.mp h]; norm_num
  have h3 : (0:ℤ) < 1000 := by norm_num
  exact ⟨⟨h1, h2, h3⟩, claim_C3_amended [(1:ℝ), 100] 1000 h1 h2 h3⟩

/-- The 200-window tail of `[1, 100]` is the whole list. -/
lemma lastN200_two : lastN 200 [(1:ℝ), 100] = [1, 100] := by
  unfold lastN
  norm_num

/-- The geometric mean of `[1, 100]` is exactly 10 (not the arithmetic mean
50.5). -/
lemma geoMean_two : geoMean [(1:ℝ), 100] = 10 := by
  unfold geoMean
  have h100 : Real.log 100 = 2 * Real.log 10 := by
    rw [show (100:ℝ) = 10 ^ (2:ℕ) by norm_num, Real.log_pow]
    norm_num
  simp [h100]
  exact Real.exp_log (by norm_num)

/-- The fair value at day 1000 is `10 ^ 0.51`. -/
lemma ahrFairValue_1000 : ahrFairValue 1000 = (10:ℝ) ^ (0.51:ℝ) := by
  unfold ahrFairValue
  rw [if_pos (by norm_num : (0:ℤ) < 1000)]
  have h3 : Real.logb 10 ((1000:ℤ):ℝ) = 3 := by
    have he : ((1000:ℤ):ℝ) = (10:ℝ) ^ (3:ℝ) := by
      rw [show (3:ℝ) = ((3:ℕ):ℝ) by norm_num, Real.rpow_natCast]
      norm_num
    rw [he, Real.logb_rpow (by norm_num) (by norm_num)]
  rw [h3, show AHR999_B * 3 + AHR999_A = (0.51:ℝ) by norm_num [AHR999_A, AHR999_B]]

/-- C3 counterexample: on the two-price series `[1, 100]` — fewer than 200
prices — `calc_ahr999` at day 1000 uses the geometric mean 10 of the
available prices (value `(100/10)·(100/fair)`), which differs from what the
arithmetic-mean fallback would give (`(100/50.5)·(100/fair)`), and its status
is the plain 止盈区 band label with no approximate flag: the claimed
"fall back to arithmetic mean and flag approximate" behaviour does not
happen. -/
theorem claim_C3_counterexample :
    ([(1:ℝ), 100].length < 200)
    ∧ (calc_ahr999 [(1:ℝ), 100] 1000).map (fun r => r.value)
        = some (some ((100 / 10) * (100 / ahrFairValue 1000)))
    ∧ (calc_ahr999 [(1:ℝ), 100] 1000).map (fun r => r.score) = some (-1)
    ∧ (calc_ahr999 [(1:ℝ), 100] 1000).map (fun r => r.status)
        = some (.zhiYingQu ((100 / 10) * (100 / ahrFairValue 1000)))
    ∧ ((100 / 10) * (100 / ahrFairValue 1000)
        = (100 / ((1 + 100) / 2)) * (100 / ahrFairValue 1000) → False) := by
  have hfpos : 0 < ahrFairValue 1000 := ahrFairValue_pos 1000 (by norm_num)
  have hfle : ahrFairValue 1000 ≤ 10 := by
    rw [ahrFairValue_1000]
    calc (10:ℝ) ^ (0.51:ℝ) ≤ (10:ℝ) ^ (1:ℝ) :=
          Real.rpow_le_rpow_of_exponent_le (by norm_num) (by norm_num)
      _ = 10 := Real.rpow_one 10
  have hval : ahrValue [(1:ℝ), 100] 1000 = (100 / 10) * (100 / ahrFairValue 1000) := by
    unfold ahrValue
    rw [lastN200_two, geoMean_two]
    norm_num
  have h10 : (10:ℝ) ≤ 100 / ahrFairValue 1000 := by
    rw [le_div_iff₀ hfpos]
    nlinarith
  have hv12 : ¬ ((100:ℝ) / 10 * (100 / ahrFairValue 1000) < 1.2) := by
    push_neg
    nlinarith
  have hv045 : ¬ ((100:ℝ) / 10 * (100 / ahrFairValue 1000) < 0.45) := by
    push_neg
    nlinarith
  rw [calc_ahr999_spec 1 [100] 1000 (by norm_num)]
  refine ⟨by norm_num, ?_, ?_, ?_, ?_⟩
  · rw [Option.map_some']
    rw [hval]
  · rw [Option.map_some']
    simp only [hval, if_neg hv045, if_neg hv12]
  · rw [Option.map_some']
    simp only [hval, if_neg hv045, if_neg hv12]
  · intro heq
    have hne : (100:ℝ) / ahrFairValue 1000 ≠ 0 := by positivity
    have := mul_right_cancel₀ hne heq
    norm_num at this

/-- Ties-to-even rounding of a value in `[0, 1/2)` is 0. -/
lemma roundHalfEven_zero (x : ℝ) (h0 : 0 ≤ x) (h1 : x < 1/2) : roundHalfEven x = 0 := by
  unfold roundHalfEven
  have hfl : ⌊x⌋ = (0:ℤ) := by
    rw [Int.floor_eq_zero_iff, Set.mem_Ico]
    constructor
    · exact h0
    · linarith
  rw [hfl]
  rw [if_neg (by
    rw [Int.cast_zero, sub_zero]
    intro h
    rw [h] at h1
    exact lt_irrefl _ h1)]
  rw [round_eq, Int.floor_eq_zero_iff, Set.mem_Ico]
  constructor
  · linarith
  · linarith

/-- Python `round(x, 3)` of a value with `0 ≤ 1000·x < 1/2` is exactly 0. -/
lemma pyRound3_zero (v : ℝ) (h0 : 0 ≤ v) (h1 : v * 1000 < 1/2) : pyRound 3 v = 0 := by
  unfold pyRound
  rw [show ((10:ℝ) ^ (3:ℕ)) = 1000 by norm_num]
  rw [roundHalfEven_zero (v * 1000) (by positivity) h1]
  simp

/-- `(l ++ [x]).filterMap f` ends with `y` when `f x = some y`. -/
lemma filterMap_last {γ δ : Type} (f : γ → Option δ) (l : List γ) (x : γ) (y : δ)
    (h : f x = some y) : ((l ++ [x]).filterMap f).getLast? = some y := by
  rw [List.filterMap_append]
  have h2 : List.filterMap f [x] = [y] := by simp [h]
  rw [h2, List.getLast?_append_of_ne_nil _ (by simp)]
  rfl

/-- `enumFrom` distributes over appending a final element. -/
lemma enumFrom_append_singleton {γ : Type} (n : ℕ) (l : List γ) (a : γ) :
    List.enumFrom n (l ++ [a]) = List.enumFrom n l ++ [(n + l.length, a)] := by
  induction l generalizing n with
  | nil => simp
  | cons x rest ih =>
    rw [List.cons_append,
      show List.enumFrom n (x :: (rest ++ [a])) = (n, x) :: List.enumFrom (n + 1) (rest ++ [a])
        from rfl,
      show List.enumFrom n (x :: rest) = (n, x) :: List.enumFrom (n + 1) rest from rfl,
      ih (n + 1), List.cons_append, List.length_cons,
      show n + (rest.length + 1) = n + 1 + rest.length by omega]

/-- `enum` distributes over appending a final element. -/
lemma enum_append_singleton {γ : Type} (l : List γ) (a : γ) :
    (l ++ [a]).enum = l.enum ++ [(l.length, a)] := by
  have h := enumFrom_append_singleton 0 l a
  simpa [List.enum] using h

/-- The last-`n` window of `l ++ [a]` keeps the final element. -/
lemma lastN_append_singleton {γ : Type} (n : ℕ) (hn : 1 ≤ n) (l : List γ) (a : γ) :
    lastN n (l ++ [a]) = l.drop (l.length + 1 - n) ++ [a] := by
  unfold lastN
  rw [List.length_append, List.length_singleton]
  exact List.drop_append_of_le_length (by omega)

/-- One history-loop iteration at a positive date always appends: the fair
value is a power of 10 and the cost a geometric mean, both positive, and both
branches of the `pd.isna` fallback compute the same geometric mean of the
trailing up-to-200 prices. -/
lemma ahrHistoryPoint_eval (prices : List ℝ) (i : ℕ) (d : ℤ) (p : ℝ) (hd : 0 < d) :
    ahrHistoryPoint prices i d p = some (d, pyRound 3
      ((p / geoMean (lastN 200 (prices.take (i + 1))))
        * (p / (10:ℝ) ^ (AHR999_A + AHR999_B * Real.logb 10 (d:ℝ))))) := by
  have hfair : (0:ℝ) < (10:ℝ) ^ (AHR999_A + AHR999_B * Real.logb 10 (d:ℝ)) :=
    Real.rpow_pos_of_pos (by norm_num) _
  have hma : (0:ℝ) < geoMean (lastN 200 (prices.take (i + 1))) := Real.exp_pos _
  simp only [ahrHistoryPoint, gmean200At, if_pos hd]
  split_ifs with h1 h2 h3
  · rfl
  · exact absurd ⟨hfair, hma⟩ h2
  · rfl
  · exact absurd ⟨hfair, hma⟩ h3

/-- The fair value at a positive date, written the way the history loop
writes it. -/
lemma ahrFairValue_of_pos (d : ℤ) (hd : 0 < d) :
    ahrFairValue d = (10:ℝ) ^ (AHR999_A + AHR999_B * Real.logb 10 (d:ℝ)) := by
  unfold ahrFairValue
  rw [if_pos hd, add_comm]

/-- The last value the Ahr999 history projector emits is exactly the
round-to-3-decimals of the point formula evaluated at the last row's date. -/
lemma ahr999_history_last (rows : List (ℤ × ℝ)) (days : ℕ) (d : ℤ) (p : ℝ)
    (hdays : 1 ≤ days) (hlast : rows.getLast? = some (d, p)) (hd : 0 < d) :
    (get_ahr999_history rows days).values.getLast?
      = some (pyRound 3 (ahrValue (rows.map Prod.snd) d)) := by
  have hne : rows ≠ [] := by
    intro h
    rw [h] at hlast
    simp at hlast
  have hgl : rows.getLast hne = (d, p) := by
    rw [List.getLast?_eq_getLast rows hne] at hlast
    exact Option.some.inj hlast
  have hrows : rows.dropLast ++ [(d, p)] = rows := by
    rw [← hgl]
    exact List.dropLast_append_getLast hne
  have hlen1 : 1 ≤ rows.length := List.length_pos.mpr hne
  have htake : rows.dropLast.length + 1 = (rows.map Prod.snd).length := by
    rw [List.length_dropLast, List.length_map]
    omega
  have hplast : (rows.map Prod.snd).getLastD 0 = p := by
    conv_lhs => rw [← hrows]
    rw [List.map_append, List.map_singleton, List.getLastD_eq_getLast?,
      List.getLast?_concat]
    rfl
  have hpoint : (fun q : ℕ × (ℤ × ℝ) =>
        (ahrHistoryPoint (rows.map Prod.snd) q.1 q.2.1 q.2.2).map Prod.snd)
        (rows.dropLast.length, (d, p))
      = some (pyRound 3 (ahrValue (rows.map Prod.snd) d)) := by
    simp only
    rw [ahrHistoryPoint_eval _ _ _ _ hd, Option.map_some']
    unfold ahrValue
    rw [htake, List.take_length, hplast, ahrFairValue_of_pos d hd]
  have henum : rows.enum = rows.dropLast.enum ++ [(rows.dropLast.length, (d, p))] := by
    conv_lhs => rw [← hrows]
    exact enum_append_singleton _ _
  simp only [get_ahr999_history]
  rw [List.map_filterMap, henum, lastN_append_singleton days hdays _ _]
  exact filterMap_last _ _ _ _ hpoint

/-- C5 amended: for the Ahr999 projector, the last element of
`get_ahr999_history(series, days).values` equals the point value that
`calc_ahr999` computes on the same series *rounded to 3 decimals* — the two
paths share one formula (same trailing geometric mean, same power-law fair
value), but the history loop takes each row's own date while the point path
takes the wall clock (here aligned: the day count equals the last row's
date), and it rounds each emitted value with `round(·, 3)`, so agreement is
only up to that rounding, not to 1e-9 relative tolerance. -/
theorem claim_C5_amended :
    ∀ (rows : List (ℤ × ℝ)) (days : ℕ) (d : ℤ) (p : ℝ),
      1 ≤ days → rows.getLast? = some (d, p) → 0 < d → (∀ q ∈ rows, 0 < q.2) →
      (get_ahr999_history rows days).values.getLast?
          = some (pyRound 3 (ahrValue (rows.map Prod.snd) d))
      ∧ (calc_ahr999 (rows.map Prod.snd) d).map (fun r => r.value)
          = some (some (ahrValue (rows.map Prod.snd) d)) := by
  intro rows days d p hdays hlast hd hpos
  refine ⟨ahr999_history_last rows days d p hdays hlast hd, ?_⟩
  cases hrows : rows with
  | nil =>
    rw [hrows] at hlast
    simp at hlast
  | cons r0 rest =>
    rw [List.map_cons, calc_ahr999_spec r0.2 (rest.map Prod.snd) d hd,
      Option.map_some']

/-- The concrete 200-row constant-price series used for C5, with dates
9801..10000: its last row. -/
lemma c5rows_getLast :
    ((List.range 200).map (fun (k : ℕ) => ((9801 + (k:ℤ)), (1:ℝ)))).getLast?
      = some (10000, 1) := by
  rw [List.range_succ 199, List.map_append, List.map_singleton, List.getLast?_concat]
  norm_num

/-- The prices of the concrete C5 series are 200 ones. -/
lemma c5rows_prices :
    ((List.range 200).map (fun (k : ℕ) => ((9801 + (k:ℤ)), (1:ℝ)))).map Prod.snd
      = List.replicate 200 (1:ℝ) := by
  rw [List.map_map]
  rw [show (Prod.snd ∘ fun k : ℕ => ((9801 + (k:ℤ)), (1:ℝ))) = fun _ : ℕ => (1:ℝ)
    from rfl]
  rw [List.map_const', List.length_range]

/-- Every price in the concrete C5 series is positive. -/
lemma c5rows_pos :
    ∀ q ∈ (List.range 200).map (fun (k : ℕ) => ((9801 + (k:ℤ)), (1:ℝ))), 0 < q.2 := by
  intro q hq
  obtain ⟨k, _, rfl⟩ := List.mem_map.mp hq
  norm_num

/-- The geometric mean of 200 ones is 1. -/
lemma geoMean_replicate_one : geoMean (List.replicate 200 (1:ℝ)) = 1 := by
  unfold geoMean
  rw [List.map_replicate, Real.log_one, List.sum_replicate, smul_zero, zero_div,
    Real.exp_zero]

/-- The fair value at day 10000 is `10 ^ 6.35`. -/
lemma ahrFairValue_10000 : ahrFairValue 10000 = (10:ℝ) ^ (6.35:ℝ) := by
  unfold ahrFairValue
  rw [if_pos (by norm_num : (0:ℤ) < 10000)]
  have h4 : Real.logb 10 ((10000:ℤ):ℝ) = 4 := by
    have he : ((10000:ℤ):ℝ) = (10:ℝ) ^ (4:ℝ) := by
      rw [show (4:ℝ) = ((4:ℕ):ℝ) by norm_num, Real.rpow_natCast]
      norm_num
    rw [he, Real.logb_rpow (by norm_num) (by norm_num)]
  rw [h4, show AHR999_B * 4 + AHR999_A = (6.35:ℝ) by norm_num [AHR999_A, AHR999_B]]

/-- The point value on the concrete C5 series: `1 / 10^6.35`. -/
lemma c5_value :
    ahrValue (List.replicate 200 (1:ℝ)) 10000 = 1 / ahrFairValue 10000 := by
  unfold ahrValue
  have hlast200 : lastN 200 (List.replicate 200 (1:ℝ)) = List.replicate 200 1 := by
    unfold lastN
    rw [List.length_replicate, Nat.sub_self, List.drop_zero]
  have hgl : (List.replicate 200 (1:ℝ)).getLastD 0 = 1 := by
    rw [List.replicate_succ' 199, List.getLastD_concat]
  rw [hlast200, geoMean_replicate_one, hgl]
  norm_num

/-- The concrete C5 point value is positive and rounds to 0 at 3 decimals. -/
lemma c5_value_bounds :
    0 < ahrValue (List.replicate 200 (1:ℝ)) 10000
    ∧ ahrValue (List.replicate 200 (1:ℝ)) 10000 * 1000 < 1/2 := by
  have hfpos : 0 < ahrFairValue 10000 := ahrFairValue_pos 10000 (by norm_num)
  have hge : (10000:ℝ) ≤ ahrFairValue 10000 := by
    rw [ahrFairValue_10000]
    calc (10000:ℝ) = (10:ℝ) ^ (4:ℝ) := by
          rw [show (4:ℝ) = ((4:ℕ):ℝ) by norm_num, Real.rpow_natCast]
          norm_num
      _ ≤ (10:ℝ) ^ (6.35:ℝ) :=
          Real.rpow_le_rpow_of_exponent_le (by norm_num) (by norm_num)
  rw [c5_value]
  constructor
  · positivity
  · rw [show (1:ℝ) / ahrFairValue 10000 * 1000 = 1000 / ahrFairValue 10000 by ring,
      div_lt_iff₀ hfpos]
    nlinarith

/-- C5 counterexample: on a concrete 200-day constant-price series ending at
day 10000, the last history value is exactly 0 (the true point value
`1/10^6.35 ≈ 4.5e-7` rounds to 0.000 at 3 decimals), while the point
computation returns that nonzero value — the relative difference is 100%,
far beyond the claimed 1e-9 tolerance. -/
theorem claim_C5_counterexample :
    (get_ahr999_history
        ((List.range 200).map (fun (k : ℕ) => ((9801 + (k:ℤ)), (1:ℝ)))) 30).values.getLast?
      = some 0
    ∧ (calc_ahr999 (List.replicate 200 (1:ℝ)) 10000).map (fun r => r.value)
      = some (some (ahrValue (List.replicate 200 (1:ℝ)) 10000))
    ∧ ((List.range 200).map (fun (k : ℕ) => ((9801 + (k:ℤ)), (1:ℝ)))).map Prod.snd
      = List.replicate 200 (1:ℝ)
    ∧ 0 < ahrValue (List.replicate 200 (1:ℝ)) 10000
    ∧ ¬ (|(0:ℝ) - ahrValue (List.replicate 200 (1:ℝ)) 10000|
          ≤ 1e-9 * |ahrValue (List.replicate 200 (1:ℝ)) 10000|) := by
  obtain ⟨hvpos, hvsmall⟩ := c5_value_bounds
  have hhist := ahr999_history_last
    ((List.range 200).map (fun (k : ℕ) => ((9801 + (k:ℤ)), (1:ℝ)))) 30 10000 1
    (by norm_num) c5rows_getLast (by norm_num)
  rw [c5rows_prices] at hhist
  rw [pyRound3_zero _ (le_of_lt hvpos) hvsmall] at hhist
  refine ⟨hhist, ?_, c5rows_prices, hvpos, ?_⟩
  · rw [show (List.replicate 200 (1:ℝ)) = (1:ℝ) :: List.replicate 199 1 from rfl,
      calc_ahr999_spec 1 (List.replicate 199 1) 10000 (by norm_num), Option.map_some']
  · rw [zero_sub, abs_neg, abs_of_pos hvpos]
    intro hle
    nlinarith

/-- Witness for C5 amended: the concrete 200-row series with `days = 30`. -/
theorem claim_C5_amended_witness :
    ((1:ℕ) ≤ 30
      ∧ ((List.range 200).map (fun (k : ℕ) => ((9801 + (k:ℤ)), (1:ℝ)))).getLast?
          = some (10000, 1)
      ∧ (0:ℤ) < 10000
      ∧ (∀ q ∈ (List.range 200).map (fun (k : ℕ) => ((9801 + (k:ℤ)), (1:ℝ))), 0 < q.2))
    ∧ ((get_ahr999_history
          ((List.range 200).map (fun (k : ℕ) => ((9801 + (k:ℤ)), (1:ℝ)))) 30).values.getLast?
        = some (pyRound 3 (ahrValue
            (((List.range 200).map (fun (k : ℕ) => ((9801 + (k:ℤ)), (1:ℝ)))).map Prod.snd)
            10000))
      ∧ (calc_ahr999
            (((List.range 200).map (fun (k : ℕ) => ((9801 + (k:ℤ)), (1:ℝ)))).map Prod.snd)
            10000).map (fun r => r.value)
        = some (some (ahrValue
            (((List.range 200).map (fun (k : ℕ) => ((9801 + (k:ℤ)), (1:ℝ)))).map Prod.snd)
            10000))) :=
  ⟨⟨by norm_num, c5rows_getLast, by norm_num, c5rows_pos⟩,
   claim_C5_amended _ 30 10000 1 (by norm_num) c5rows_getLast (by norm_num) c5rows_pos⟩

end BTC
